import Mathlib

/-!
Quantized element-wise addition on the oneDNN backend.

A shallow embedding of
`src/operator/quantization/dnnl/dnnl_quantized_elemwise_add.cc`.

Conventions of the embedding:

* `float` and `double` scalars are exact rationals: rounding is abstracted away,
  and a division by zero (which yields an infinity or a NaN in the C++ code) is
  only ever reasoned about under explicit non-zero hypotheses or through the
  list of divisors of a call;
* a tensor is a value (`NDArray`); the kernel returns the updated output arrays;
* the thread-local plan cache, the oneDNN stream and the construction counter
  are explicit state (`ThreadState`), threaded through the calls;
* a failed `CHECK` is an `Outcome` carrying the message and the untouched state.
-/

namespace mxnet
namespace op

/-! ## Data model -/

/-- Element type flags (mshadow) that the operator meets: quantized tensors are
`kInt8`, `kUint8` or `kInt32`, range scalars are `kFloat32`. -/
inductive TypeFlag where
  | kFloat32
  | kUint8
  | kInt32
  | kInt8
deriving DecidableEq, Repr

/-- The range constants of `quantization_utils.h`. The header is not part of the
sources at hand, so the three constants are parameters of the embedding. -/
structure RangeConstants where
  kInt8Range : ℚ
  kUint8Range : ℚ
  kInt32Range : ℚ
deriving DecidableEq, Repr

/-- The values the constants have for 8-bit and 32-bit integers
(`127`, `255`, `2^31 - 1`); used to evaluate the kernel on concrete inputs. -/
def stdRanges : RangeConstants :=
  { kInt8Range := 127, kUint8Range := 255, kInt32Range := 2147483647 }

/-- Modelled from the spec: `MaxAbs` of `quantization_utils.h` (not in the sources at
hand), "absmax = max(|min|, |max|)". -/
def MaxAbs (a b : ℚ) : ℚ := max |a| |b|

/-- Write modes of an output (`OpReqType`). -/
inductive OpReqType where
  | kNullOp
  | kWriteTo
  | kWriteInplace
  | kAddTo
deriving DecidableEq, Repr

/-- A tensor: element type, shape and buffer contents. -/
structure NDArray where
  dtype : TypeFlag
  shape : List Nat
  data : List ℚ
deriving DecidableEq, Repr

instance : Inhabited NDArray := ⟨{ dtype := TypeFlag.kFloat32, shape := [], data := [] }⟩

/-- Reads a scalar tensor: `arr.data().dptr<float>()[0]`. -/
def NDArray.scalar (arr : NDArray) : ℚ := arr.data.headD 0

/-- Writes a scalar tensor: `arr.data().dptr<float>()[0] = v`. -/
def NDArray.setScalar (arr : NDArray) (v : ℚ) : NDArray :=
  { arr with data := v :: arr.data.drop 1 }

/-- The optional calibration range of `QuantizeElemwiseAddParam`. -/
structure QuantizeElemwiseAddParam where
  min_calib_range : Option ℚ
  max_calib_range : Option ℚ
deriving DecidableEq, Repr

/-- Positions of the inputs (`A, B, A_min, A_max, B_min, B_max`) and of the outputs
(`C, C_min, C_max`). -/
abbrev quantized_elemwise_add_enum.kDataA : Nat := 0

/-- Input position of operand B. -/
abbrev quantized_elemwise_add_enum.kDataB : Nat := 1

/-- Input position of the minimum of the range of A. -/
abbrev quantized_elemwise_add_enum.kAMin : Nat := 2

/-- Input position of the maximum of the range of A. -/
abbrev quantized_elemwise_add_enum.kAMax : Nat := 3

/-- Input position of the minimum of the range of B. -/
abbrev quantized_elemwise_add_enum.kBMin : Nat := 4

/-- Input position of the maximum of the range of B. -/
abbrev quantized_elemwise_add_enum.kBMax : Nat := 5

/-- Output position of the result tensor. -/
abbrev quantized_elemwise_add_enum.kOut : Nat := 0

/-- Output position of the minimum of the result range. -/
abbrev quantized_elemwise_add_enum.kMin : Nat := 1

/-- Output position of the maximum of the result range. -/
abbrev quantized_elemwise_add_enum.kMax : Nat := 2

/-! ## The oneDNN objects the kernel handles -/

/-- Element types of oneDNN memory (`dnnl::memory::data_type`). -/
inductive dnnl.data_type where
  | f32
  | s32
  | s8
  | u8
deriving DecidableEq, Repr

/-- Layout tags of oneDNN memory: a concrete layout or `any`. -/
inductive dnnl.format_tag where
  | any
  | plain
deriving DecidableEq, Repr

/-- A memory descriptor (`dnnl::memory::desc`): dimensions, element type, layout. -/
structure dnnl.memory_desc where
  dims : List Nat
  dtype : dnnl.data_type
  format : dnnl.format_tag
deriving DecidableEq, Repr

/-- What a memory handle points at: the buffer of a tensor, or scratch memory of
the temporary memory manager. -/
inductive dnnl.storage where
  | tensor (arr : NDArray)
  | scratch
deriving DecidableEq, Repr

/-- A memory handle (`dnnl::memory`): descriptor and storage. -/
structure dnnl.memory where
  desc : dnnl.memory_desc
  handle : dnnl.storage
deriving DecidableEq, Repr

/-- Modelled from the spec: `get_dnnl_type` (not in the sources at hand); the oneDNN
element type of a tensor dtype: signed 8-bit, unsigned 8-bit, the 32-bit signed
accumulator type, or float32. -/
def get_dnnl_type : TypeFlag → dnnl.data_type
  | TypeFlag.kFloat32 => dnnl.data_type.f32
  | TypeFlag.kInt32 => dnnl.data_type.s32
  | TypeFlag.kInt8 => dnnl.data_type.s8
  | TypeFlag.kUint8 => dnnl.data_type.u8

/-- Modelled from the spec: `NDArray::GetDNNLData` (not in the sources at hand); the
memory handle of a tensor wraps the tensor's buffer and carries its element type
and shape. -/
def NDArray.GetDNNLData (arr : NDArray) : dnnl.memory :=
  { desc := { dims := arr.shape, dtype := get_dnnl_type arr.dtype, format := dnnl.format_tag.plain },
    handle := dnnl.storage.tensor arr }

/-- Modelled from the spec: `TmpMemMgr::Alloc` (not in the sources at hand); a scratch
buffer "sized and typed like" the descriptor it is asked for. -/
def TmpMemMgr.Alloc (md : dnnl.memory_desc) : dnnl.memory :=
  { desc := md, handle := dnnl.storage.scratch }

/-- The primitive descriptor of a fused sum: `dnnl::sum::primitive_desc(output_desc,
scales, data_md, engine)`. -/
structure dnnl.sum_primitive_desc where
  dst_desc : dnnl.memory_desc
  scales : List ℚ
  src_descs : List dnnl.memory_desc
deriving DecidableEq, Repr

/-- The primitive descriptor of a reorder with output scales:
`dnnl::reorder::primitive_desc(engine, src_desc, engine, dst_desc, attr)`. -/
structure dnnl.reorder_primitive_desc where
  src_desc : dnnl.memory_desc
  dst_desc : dnnl.memory_desc
  output_scales : List ℚ
deriving DecidableEq, Repr

/-- The class `DNNLQuantizedElemwiseAddFwd`: the execution plan of a fused sum. -/
structure DNNLQuantizedElemwiseAddFwd where
  fwd_pd : dnnl.sum_primitive_desc
  fwd_ : dnnl.sum_primitive_desc
  data_ : List (Option dnnl.memory)
  out_ : Option dnnl.memory
deriving DecidableEq, Repr

/-- The constructor of `DNNLQuantizedElemwiseAddFwd`. -/
def DNNLQuantizedElemwiseAddFwd.new (output_desc : dnnl.memory_desc) (scales : List ℚ)
    (data_md : List dnnl.memory_desc) : DNNLQuantizedElemwiseAddFwd :=
  let fwd_pd : dnnl.sum_primitive_desc :=
    { dst_desc := output_desc, scales := scales, src_descs := data_md }
  { fwd_pd := fwd_pd, fwd_ := fwd_pd, data_ := List.replicate data_md.length none, out_ := none }

/-- The method `GetFwd`. -/
def DNNLQuantizedElemwiseAddFwd.GetFwd (fwd : DNNLQuantizedElemwiseAddFwd) :
    dnnl.sum_primitive_desc :=
  fwd.fwd_

/-- A primitive registered on the stream together with its arguments. -/
inductive PrimArgs where
  | reorder (pd : dnnl.reorder_primitive_desc) (src dst : dnnl.memory)
  | sum (prim : dnnl.sum_primitive_desc) (src0 src1 dst : dnnl.memory)
  | commit (out_arr : NDArray) (req : OpReqType) (mem : dnnl.memory)
deriving DecidableEq, Repr

/-- One element of a plan key. -/
inductive SigEle where
  | arr (dtype : TypeFlag) (shape : List Nat)
  | val (v : ℚ)
deriving DecidableEq, Repr

/-- Modelled from the spec: `OpSignature` (not in the sources at hand), "a structural
signature built from operand shapes/dtypes, the four input range scalars, and the
two output range scalars", compared by value. -/
structure OpSignature where
  eles : List SigEle
deriving DecidableEq, Repr

/-- The empty signature (`OpSignature key;`). -/
def OpSignature.empty : OpSignature := { eles := [] }

/-- Modelled from the spec: `AddSign` of one tensor adds its dtype and shape, never its
contents. -/
def OpSignature.AddSignArr (key : OpSignature) (arr : NDArray) : OpSignature :=
  { eles := key.eles ++ [SigEle.arr arr.dtype arr.shape] }

/-- Modelled from the spec: `AddSign` of a vector of tensors adds each of them in order. -/
def OpSignature.AddSignArrs (key : OpSignature) (arrs : List NDArray) : OpSignature :=
  arrs.foldl OpSignature.AddSignArr key

/-- Modelled from the spec: `AddSign` of a range scalar adds its value. -/
def OpSignature.AddSignVal (key : OpSignature) (v : ℚ) : OpSignature :=
  { eles := key.eles ++ [SigEle.val v] }

/-- The state owned by the executing thread: the thread-local map `fwds` of
`GetQuantizedElemwiseAddForward`, a counter of the plans constructed so far, the
primitives registered on the stream and not yet submitted, and the primitives
submitted so far. -/
structure ThreadState where
  fwds : List (OpSignature × DNNLQuantizedElemwiseAddFwd)
  constructed : Nat
  stream : List PrimArgs
  submitted : List PrimArgs
deriving DecidableEq, Repr

/-- A fresh thread: empty cache, nothing constructed, empty stream. -/
def ThreadState.init : ThreadState :=
  { fwds := [], constructed := 0, stream := [], submitted := [] }

/-- Modelled from the spec: `DNNLStream::RegisterPrimArgs` (not in the sources at hand)
appends a primitive and its arguments to the stream. -/
def ThreadState.RegisterPrimArgs (th : ThreadState) (p : PrimArgs) : ThreadState :=
  { th with stream := th.stream ++ [p] }

/-- Modelled from the spec: `DNNLStream::Submit` (not in the sources at hand) "submits
the accumulated operations for execution" and leaves the stream empty. -/
def ThreadState.Submit (th : ThreadState) : ThreadState :=
  { th with stream := [], submitted := th.submitted ++ th.stream }

/-- Modelled from the spec: `find` on the thread-local map, by key equality. -/
def findFwd (fwds : List (OpSignature × DNNLQuantizedElemwiseAddFwd)) (key : OpSignature) :
    Option DNNLQuantizedElemwiseAddFwd :=
  (fwds.find? (fun e => decide (e.1 = key))).map Prod.snd

/-- Modelled from the spec: `AddToCache` (not in the sources at hand), "insert under
key", with no eviction; returns the new map and the stored plan. -/
def AddToCache (fwds : List (OpSignature × DNNLQuantizedElemwiseAddFwd)) (key : OpSignature)
    (fwd : DNNLQuantizedElemwiseAddFwd) :
    List (OpSignature × DNNLQuantizedElemwiseAddFwd) × DNNLQuantizedElemwiseAddFwd :=
  ((key, fwd) :: fwds, fwd)

/-- Modelled from the spec: `CreateDNNLMem` (not in the sources at hand), "destination
memory matching the plan's output descriptor", the write mode being passed on. -/
def CreateDNNLMem (out_arr : NDArray) (desc : dnnl.memory_desc) (req : OpReqType)
    (_in_arr : NDArray) : OpReqType × dnnl.memory :=
  (req, { desc := desc, handle := dnnl.storage.tensor out_arr })

/-- Modelled from the spec: `CommitOutput` (not in the sources at hand) "commits the
output buffer to the output tensor"; recorded on the stream. -/
def ThreadState.CommitOutput (th : ThreadState) (out_arr : NDArray)
    (res : OpReqType × dnnl.memory) : ThreadState :=
  th.RegisterPrimArgs (PrimArgs.commit out_arr res.1 res.2)

/-! ## The operator -/

open quantized_elemwise_add_enum

/-- The function `GetScale`: the range constant of the tensor's dtype (signed 8-bit
for `kInt8`, unsigned 8-bit otherwise) divided by the absolute maximum of the range. -/
def GetScale (c : RangeConstants) (data : NDArray) (min max : ℚ) : ℚ :=
  let data_range := if data.dtype = TypeFlag.kInt8 then c.kInt8Range else c.kUint8Range
  data_range / MaxAbs min max

/-- The plan key built by `GetQuantizedElemwiseAddForward`: the inputs, the four
input range scalars, the outputs, and the two output range scalars as they are
when the key is built. -/
def planKey (in_data out_data : List NDArray) : OpSignature :=
  let key := OpSignature.empty
  let key := key.AddSignArrs in_data
  let key := key.AddSignVal (in_data.getD kAMin default).scalar
  let key := key.AddSignVal (in_data.getD kAMax default).scalar
  let key := key.AddSignVal (in_data.getD kBMin default).scalar
  let key := key.AddSignVal (in_data.getD kBMax default).scalar
  let key := key.AddSignArrs out_data
  let key := key.AddSignVal (out_data.getD kMin default).scalar
  let key := key.AddSignVal (out_data.getD kMax default).scalar
  key

/-- The function `GetQuantizedElemwiseAddForward`: look the key up in the thread's
map; on a miss construct a plan from the descriptors and scales of this call and
store it; return the plan found or stored. -/
def GetQuantizedElemwiseAddForward (output_desc : dnnl.memory_desc) (scales : List ℚ)
    (in_data out_data : List NDArray) (data_md : List dnnl.memory_desc) (th : ThreadState) :
    DNNLQuantizedElemwiseAddFwd × ThreadState :=
  let key := planKey in_data out_data
  match findFwd th.fwds key with
  | some fwd => (fwd, th)
  | none =>
    let fwd := DNNLQuantizedElemwiseAddFwd.new output_desc scales data_md
    let r := AddToCache th.fwds key fwd
    (r.2, { th with fwds := r.1, constructed := th.constructed + 1 })

/-- The local variables of `DNNLQuantizedElemwiseAddForward` once the scales are
derived (source lines 103 to 202). `u8_reorder_scale` and `reorder` are present
on the cross-type path only; `dataA_mem` and `dataB_mem` are the handles as they
are after that path has replaced one of them. -/
structure ForwardLocals where
  dataA_absmax : ℚ
  dataB_absmax : ℚ
  is_dataA_int8 : Bool
  dataA_range : ℚ
  A_scale : ℚ
  B_scale : ℚ
  output_data_range : ℚ
  output_data_type : dnnl.data_type
  output_min : ℚ
  output_max : ℚ
  out_data_scale : ℚ
  scales : List ℚ
  u8_reorder_scale : Option ℚ
  reorder : Option PrimArgs
  dataA_mem : dnnl.memory
  dataB_mem : dnnl.memory
deriving DecidableEq, Repr

/-- Whether both calibration bounds are given:
`params.max_calib_range.has_value() && params.min_calib_range.has_value()`. -/
def QuantizeElemwiseAddParam.calibrated (params : QuantizeElemwiseAddParam) : Bool :=
  params.max_calib_range.isSome && params.min_calib_range.isSome

/-- Source lines 103 to 202 of `DNNLQuantizedElemwiseAddForward`: ranges, output
domain, output range, scales, and the reorder of the cross-type path. -/
def forwardLocals (c : RangeConstants) (params : QuantizeElemwiseAddParam)
    (in_data out_data : List NDArray) : ForwardLocals :=
  let dataA_min := (in_data.getD kAMin default).scalar
  let dataB_min := (in_data.getD kBMin default).scalar
  let dataA_max := (in_data.getD kAMax default).scalar
  let dataB_max := (in_data.getD kBMax default).scalar
  let dataA_absmax := MaxAbs dataA_min dataA_max
  let dataB_absmax := MaxAbs dataB_min dataB_max
  let dataA_mem := (in_data.getD kDataA default).GetDNNLData
  let dataB_mem := (in_data.getD kDataB default).GetDNNLData
  let is_dataA_int8 : Bool := decide ((in_data.getD kDataA default).dtype = TypeFlag.kInt8)
  let dataA_range := if is_dataA_int8 then c.kInt8Range else c.kUint8Range
  let A_scale := GetScale c (in_data.getD kDataA default) dataA_min dataA_max
  let B_scale := GetScale c (in_data.getD kDataB default) dataB_min dataB_max
  -- output default set as int32
  let output_data_range : ℚ :=
    if (out_data.getD kOut default).dtype = TypeFlag.kInt8 then c.kInt8Range
    else if (out_data.getD kOut default).dtype = TypeFlag.kUint8 then c.kUint8Range
    else c.kInt32Range
  let output_data_type : dnnl.data_type :=
    if (out_data.getD kOut default).dtype = TypeFlag.kInt8 then dnnl.data_type.s8
    else if (out_data.getD kOut default).dtype = TypeFlag.kUint8 then dnnl.data_type.u8
    else dnnl.data_type.s32
  let output_min : ℚ :=
    match params.max_calib_range, params.min_calib_range with
    | some _, some mn => mn
    | _, _ => -(dataA_absmax + dataB_absmax)
  let output_max : ℚ :=
    match params.max_calib_range, params.min_calib_range with
    | some mx, some _ => mx
    | _, _ => dataA_absmax + dataB_absmax
  let out_data_scale : ℚ :=
    match params.max_calib_range, params.min_calib_range with
    | some _, some _ => output_data_range / MaxAbs output_min output_max
    | _, _ => 0
  -- 2: scale 0 for dataA, scale 1 for data B
  let scales_num := 2
  let scales : List ℚ := List.replicate scales_num 1
  if (in_data.getD kDataA default).dtype ≠ (in_data.getD kDataB default).dtype then
    let s8_desc := if is_dataA_int8 then dataA_mem.desc else dataB_mem.desc
    let rescaled_mem := TmpMemMgr.Alloc s8_desc
    let u8_reorder_scale : ℚ :=
      if params.calibrated then
        if is_dataA_int8 then out_data_scale / B_scale else out_data_scale / A_scale
      else
        if is_dataA_int8 then
          dataB_absmax * output_data_range / ((dataA_absmax + dataB_absmax) * c.kUint8Range)
        else
          dataA_absmax * output_data_range / ((dataA_absmax + dataB_absmax) * dataA_range)
    let scales : List ℚ :=
      if params.calibrated then
        if is_dataA_int8 then scales.set 0 (out_data_scale / A_scale)
        else scales.set 1 (out_data_scale / B_scale)
      else
        if is_dataA_int8 then
          scales.set 0
            (dataA_absmax * output_data_range / ((dataA_absmax + dataB_absmax) * dataA_range))
        else
          scales.set 1
            (dataB_absmax * output_data_range / ((dataA_absmax + dataB_absmax) * c.kInt8Range))
    let reorder_scale : List ℚ := [u8_reorder_scale]
    let u8_mem := if is_dataA_int8 then dataB_mem else dataA_mem
    let reorder_pd : dnnl.reorder_primitive_desc :=
      { src_desc := u8_mem.desc, dst_desc := s8_desc, output_scales := reorder_scale }
    { dataA_absmax := dataA_absmax, dataB_absmax := dataB_absmax,
      is_dataA_int8 := is_dataA_int8, dataA_range := dataA_range,
      A_scale := A_scale, B_scale := B_scale,
      output_data_range := output_data_range, output_data_type := output_data_type,
      output_min := output_min, output_max := output_max, out_data_scale := out_data_scale,
      scales := scales, u8_reorder_scale := some u8_reorder_scale,
      reorder := some (PrimArgs.reorder reorder_pd u8_mem rescaled_mem),
      dataA_mem := if is_dataA_int8 then dataA_mem else rescaled_mem,
      dataB_mem := if is_dataA_int8 then rescaled_mem else dataB_mem }
  else
    -- same data type and has same data range
    let scales : List ℚ :=
      if params.calibrated then
        (scales.set 0 (out_data_scale / A_scale)).set 1 (out_data_scale / B_scale)
      else
        (scales.set 0
            (dataA_absmax * output_data_range / ((dataA_absmax + dataB_absmax) * dataA_range))).set
          1 (dataB_absmax * output_data_range / ((dataA_absmax + dataB_absmax) * dataA_range))
    { dataA_absmax := dataA_absmax, dataB_absmax := dataB_absmax,
      is_dataA_int8 := is_dataA_int8, dataA_range := dataA_range,
      A_scale := A_scale, B_scale := B_scale,
      output_data_range := output_data_range, output_data_type := output_data_type,
      output_min := output_min, output_max := output_max, out_data_scale := out_data_scale,
      scales := scales, u8_reorder_scale := none, reorder := none,
      dataA_mem := dataA_mem, dataB_mem := dataB_mem }

/-- What a call of the kernel leaves behind: the message of the failed `CHECK` if
there is one, the output arrays and the thread's state. -/
structure Outcome where
  error : Option String
  out_data : List NDArray
  thread : ThreadState
deriving DecidableEq, Repr

/-- The kernel `DNNLQuantizedElemwiseAddForward`. -/
def DNNLQuantizedElemwiseAddForward (c : RangeConstants) (params : QuantizeElemwiseAddParam)
    (in_data : List NDArray) (req : List OpReqType) (out_data : List NDArray)
    (th : ThreadState) : Outcome :=
  -- A, B, A_min, A_max, B_min, B_max
  if in_data.length ≠ 6 then
    { error := some "should be A, B, A_min, A_max, B_min, B_max", out_data := out_data,
      thread := th }
  -- C, C_min, C_max
  else if out_data.length ≠ 3 then
    { error := some "should be C, C_min, C_max", out_data := out_data, thread := th }
  else
    let l := forwardLocals c params in_data out_data
    let th :=
      match l.reorder with
      | some p => th.RegisterPrimArgs p
      | none => th
    let in_desc := [l.dataA_mem.desc, l.dataB_mem.desc]
    let i_dims := (in_data.getD kDataA default).shape
    let output_desc : dnnl.memory_desc :=
      { dims := i_dims, dtype := l.output_data_type, format := dnnl.format_tag.any }
    let r := GetQuantizedElemwiseAddForward output_desc l.scales in_data out_data in_desc th
    let fwd := r.1
    let th := r.2
    let mem := CreateDNNLMem (out_data.getD kOut default) fwd.fwd_pd.dst_desc
      (req.headD OpReqType.kNullOp) (in_data.getD 0 default)
    let th := th.RegisterPrimArgs (PrimArgs.sum fwd.GetFwd l.dataA_mem l.dataB_mem mem.2)
    let th := th.CommitOutput (out_data.getD kOut default) mem
    let th := th.Submit
    let out_data := out_data.set kMin ((out_data.getD kMin default).setScalar l.output_min)
    let out_data := out_data.set kMax ((out_data.getD kMax default).setScalar l.output_max)
    { error := none, out_data := out_data, thread := th }

/-- The function `ElemwiseAddStorageType`: two arity checks, then the storage-type
inference of the backend (`DNNLStorageType`, not in the sources at hand, a
parameter here). -/
def ElemwiseAddStorageType {Attrs Mode : Type}
    (DNNLStorageType : Attrs → Int → Bool → Mode → List Int → List Int → Bool)
    (attrs : Attrs) (dev_mask : Int) (dispatch_mode : Mode) (in_attrs out_attrs : List Int) :
    Except String Bool :=
  -- Check num of inputs: A, B, A_min, A_max, B_min, B_max
  if in_attrs.length ≠ 6 then Except.error "Check failed: in_attrs->size() == 6U"
  -- Check num of outputs: C, C_min, C_max
  else if out_attrs.length ≠ 3 then Except.error "Check failed: out_attrs->size() == 3U"
  else Except.ok (DNNLStorageType attrs dev_mask true dispatch_mode in_attrs out_attrs)

/-! ## Observations, call sequences and concrete inputs -/

/-- A float32 scalar tensor holding `v`. -/
def scalarArr (v : ℚ) : NDArray := { dtype := TypeFlag.kFloat32, shape := [1], data := [v] }

/-- A quantized tensor of the given dtype with four elements. -/
def quantArr (t : TypeFlag) (d : List ℚ) : NDArray := { dtype := t, shape := [4], data := d }

/-- The scenario of the spec: A is uint8 with range [0, 100], B is int8 with range
[-50, 50]. -/
def scenarioIn : List NDArray :=
  [quantArr TypeFlag.kUint8 [10, 20, 30, 40], quantArr TypeFlag.kInt8 [-1, 2, -3, 4],
   scalarArr 0, scalarArr 100, scalarArr (-50), scalarArr 50]

/-- Fresh outputs: an int8 result tensor and two range scalars holding 0. -/
def scenarioOut : List NDArray :=
  [quantArr TypeFlag.kInt8 [0, 0, 0, 0], scalarArr 0, scalarArr 0]

/-- No calibration. -/
def noCalib : QuantizeElemwiseAddParam := { min_calib_range := none, max_calib_range := none }

/-- The calibration [-120, 120] of the spec's scenario. -/
def calib120 : QuantizeElemwiseAddParam :=
  { min_calib_range := some (-120), max_calib_range := some 120 }

/-- The range constants are positive (they are 127, 255 and 2^31 - 1 in the header). -/
def RangeConstants.Positive (c : RangeConstants) : Prop :=
  0 < c.kInt8Range ∧ 0 < c.kUint8Range ∧ 0 < c.kInt32Range

/-- The calibration [-60, 60]. -/
def calib60 : QuantizeElemwiseAddParam :=
  { min_calib_range := some (-60), max_calib_range := some 60 }

/-- Both operands int8: A with range [-20, 10], B with range [-5, 30]. -/
def sameTypeIn : List NDArray :=
  [quantArr TypeFlag.kInt8 [1, -2, 3, -4], quantArr TypeFlag.kInt8 [5, 6, -7, 8],
   scalarArr (-20), scalarArr 10, scalarArr (-5), scalarArr 30]

/-- The spec's scenario with the operands swapped: A is int8 with range [-50, 50],
B is uint8 with range [0, 100]. -/
def swappedIn : List NDArray :=
  [quantArr TypeFlag.kInt8 [-1, 2, -3, 4], quantArr TypeFlag.kUint8 [10, 20, 30, 40],
   scalarArr (-50), scalarArr 50, scalarArr 0, scalarArr 100]

/-- The spec's scenario with other tensor contents: same dtypes, shapes and ranges
as `scenarioIn`. -/
def scenarioIn2 : List NDArray :=
  [quantArr TypeFlag.kUint8 [200, 0, 7, 99], quantArr TypeFlag.kInt8 [-100, 100, 0, 5],
   scalarArr 0, scalarArr 100, scalarArr (-50), scalarArr 50]

/-- A single write request for the result tensor. -/
def reqWrite : List OpReqType := [OpReqType.kWriteTo]

/-- The scale vectors of the fused sums a thread has submitted so far, oldest first. -/
def ThreadState.sumScales (th : ThreadState) : List (List ℚ) :=
  th.submitted.filterMap fun p =>
    match p with
    | PrimArgs.sum prim _ _ _ => some prim.scales
    | _ => none

/-- The divisors of the divisions a call performs, in source order: the two
`GetScale` calls (lines 117 and 119), `out_data_scale` in calibrated mode (line
144), then the two scale formulas of the branch taken (lines 160 to 200). -/
def forwardDivisors (c : RangeConstants) (params : QuantizeElemwiseAddParam)
    (in_data out_data : List NDArray) : List ℚ :=
  let l := forwardLocals c params in_data out_data
  let dataA_min := (in_data.getD kAMin default).scalar
  let dataB_min := (in_data.getD kBMin default).scalar
  let dataA_max := (in_data.getD kAMax default).scalar
  let dataB_max := (in_data.getD kBMax default).scalar
  [MaxAbs dataA_min dataA_max, MaxAbs dataB_min dataB_max] ++
  (if params.calibrated then [MaxAbs l.output_min l.output_max] else []) ++
  (if (in_data.getD kDataA default).dtype ≠ (in_data.getD kDataB default).dtype then
    if params.calibrated then
      if l.is_dataA_int8 then [l.B_scale, l.A_scale] else [l.A_scale, l.B_scale]
    else
      if l.is_dataA_int8 then
        [(l.dataA_absmax + l.dataB_absmax) * c.kUint8Range,
         (l.dataA_absmax + l.dataB_absmax) * l.dataA_range]
      else
        [(l.dataA_absmax + l.dataB_absmax) * l.dataA_range,
         (l.dataA_absmax + l.dataB_absmax) * c.kInt8Range]
  else
    if params.calibrated then [l.A_scale, l.B_scale]
    else
      [(l.dataA_absmax + l.dataB_absmax) * l.dataA_range,
       (l.dataA_absmax + l.dataB_absmax) * l.dataA_range])

/-- Both operands int8 with the degenerate range [0, 0]. -/
def zeroIn : List NDArray :=
  [quantArr TypeFlag.kInt8 [0, 0, 0, 0], quantArr TypeFlag.kInt8 [0, 0, 0, 0],
   scalarArr 0, scalarArr 0, scalarArr 0, scalarArr 0]

/-- Outputs whose range scalars hold 7 and 9 before the call. -/
def staleOut : List NDArray :=
  [quantArr TypeFlag.kInt8 [0, 0, 0, 0], scalarArr 7, scalarArr 9]

/-- The arguments of one call of `GetQuantizedElemwiseAddForward`. -/
structure GetCall where
  output_desc : dnnl.memory_desc
  scales : List ℚ
  in_data : List NDArray
  out_data : List NDArray
  data_md : List dnnl.memory_desc
deriving DecidableEq, Repr

/-- The key a call builds. -/
def GetCall.key (a : GetCall) : OpSignature := planKey a.in_data a.out_data

/-- One call of `GetQuantizedElemwiseAddForward` on a thread. -/
def GetCall.run (a : GetCall) (th : ThreadState) : DNNLQuantizedElemwiseAddFwd × ThreadState :=
  GetQuantizedElemwiseAddForward a.output_desc a.scales a.in_data a.out_data a.data_md th

/-- A sequence of calls on one thread: the plans returned, in call order, and the
state of the thread afterwards. -/
def runCalls (th : ThreadState) : List GetCall → List DNNLQuantizedElemwiseAddFwd × ThreadState
  | [] => ([], th)
  | a :: rest => ((a.run th).1 :: (runCalls (a.run th).2 rest).1, (runCalls (a.run th).2 rest).2)

/-- What the key records of a tensor: its dtype and shape. -/
def NDArray.sig (arr : NDArray) : TypeFlag × List Nat := (arr.dtype, arr.shape)

/-- The counter and the map of a thread agree, and no key is stored twice. -/
def CacheInv (th : ThreadState) : Prop :=
  th.constructed = th.fwds.length ∧ (th.fwds.map Prod.fst).Nodup

/-- A plan's destination descriptor used in the concrete call sequences. -/
def s8Any : dnnl.memory_desc :=
  { dims := [4], dtype := dnnl.data_type.s8, format := dnnl.format_tag.any }

/-- A source descriptor used in the concrete call sequences. -/
def s8Plain : dnnl.memory_desc :=
  { dims := [4], dtype := dnnl.data_type.s8, format := dnnl.format_tag.plain }

/-- Three calls on one thread: the second builds the key of the first from tensors
with other contents and brings other scales, the third builds another key. -/
def threeCalls : List GetCall :=
  [{ output_desc := s8Any, scales := [1, 5 / 12], in_data := scenarioIn, out_data := scenarioOut,
     data_md := [s8Plain, s8Plain] },
   { output_desc := s8Any, scales := [1, 5 / 6], in_data := scenarioIn2, out_data := scenarioOut,
     data_md := [s8Plain, s8Plain] },
   { output_desc := s8Any, scales := [2 / 5, 3 / 5], in_data := sameTypeIn,
     out_data := scenarioOut, data_md := [s8Plain, s8Plain] }]

/-- The thread after an earlier call of another node: same tensors and ranges as the
spec's scenario, calibration [-120, 120], fresh outputs. -/
def priorThread : ThreadState :=
  (DNNLQuantizedElemwiseAddForward stdRanges calib120 scenarioIn reqWrite scenarioOut
    ThreadState.init).thread

/-- The first of two successive identical calls (calibration [-60, 60]). -/
def firstCall : Outcome :=
  DNNLQuantizedElemwiseAddForward stdRanges calib60 scenarioIn reqWrite scenarioOut priorThread

/-- The second call: same inputs and calibration, on the outputs and the thread the
first call left. -/
def secondCall : Outcome :=
  DNNLQuantizedElemwiseAddForward stdRanges calib60 scenarioIn reqWrite firstCall.out_data
    firstCall.thread

/-- Fresh outputs with an int32 result tensor. -/
def int32Out : List NDArray :=
  [quantArr TypeFlag.kInt32 [0, 0, 0, 0], scalarArr 0, scalarArr 0]

/-- The calibration bounds that dynamic mode is compared with: minus and plus the
sum of the operands' absolute maxima. -/
def sumCalib (in_data : List NDArray) : QuantizeElemwiseAddParam :=
  { min_calib_range :=
      some (-(MaxAbs (in_data.getD kAMin default).scalar (in_data.getD kAMax default).scalar +
        MaxAbs (in_data.getD kBMin default).scalar (in_data.getD kBMax default).scalar)),
    max_calib_range :=
      some (MaxAbs (in_data.getD kAMin default).scalar (in_data.getD kAMax default).scalar +
        MaxAbs (in_data.getD kBMin default).scalar (in_data.getD kBMax default).scalar) }

/-- Inputs with the ranges of the spec's scenario but other tensors: both operands
int8, of shape [2, 3]. -/
def otherShapeIn : List NDArray :=
  [{ dtype := TypeFlag.kInt8, shape := [2, 3], data := [1, 2, 3, 4, 5, 6] },
   { dtype := TypeFlag.kInt8, shape := [2, 3], data := [-6, -5, -4, -3, -2, -1] },
   scalarArr 0, scalarArr 100, scalarArr (-50), scalarArr 50]

/-- Outputs for `otherShapeIn`: an int32 result tensor of shape [2, 3] and range
scalars holding 3 and 4. -/
def otherShapeOut : List NDArray :=
  [{ dtype := TypeFlag.kInt32, shape := [2, 3], data := [0, 0, 0, 0, 0, 0] }, scalarArr 3,
   scalarArr 4]

/-! ## Lemmas on the embedding -/

/-- The output maximum derived by a call: the calibration maximum when both bounds
are given, the sum of the operands' absolute maxima otherwise. -/
theorem forwardLocals_output_max (c : RangeConstants) (params : QuantizeElemwiseAddParam)
    (in_data out_data : List NDArray) :
    (forwardLocals c params in_data out_data).output_max =
      match params.max_calib_range, params.min_calib_range with
      | some mx, some _ => mx
      | _, _ =>
        MaxAbs (in_data.getD kAMin default).scalar (in_data.getD kAMax default).scalar +
          MaxAbs (in_data.getD kBMin default).scalar (in_data.getD kBMax default).scalar := by
  unfold forwardLocals
  dsimp only
  split <;> rfl

/-- The output minimum derived by a call. -/
theorem forwardLocals_output_min (c : RangeConstants) (params : QuantizeElemwiseAddParam)
    (in_data out_data : List NDArray) :
    (forwardLocals c params in_data out_data).output_min =
      match params.max_calib_range, params.min_calib_range with
      | some _, some mn => mn
      | _, _ =>
        -(MaxAbs (in_data.getD kAMin default).scalar (in_data.getD kAMax default).scalar +
          MaxAbs (in_data.getD kBMin default).scalar (in_data.getD kBMax default).scalar) := by
  unfold forwardLocals
  dsimp only
  split <;> rfl

/-- Reading a scalar that was just written gives the written value. -/
theorem scalar_setScalar (arr : NDArray) (v : ℚ) : (arr.setScalar v).scalar = v := rfl

/-- A call with six inputs and three outputs passes both checks. -/
theorem forward_error_none (c : RangeConstants) (params : QuantizeElemwiseAddParam)
    (in_data : List NDArray) (req : List OpReqType) (out_data : List NDArray) (th : ThreadState)
    (hin : in_data.length = 6) (hout : out_data.length = 3) :
    (DNNLQuantizedElemwiseAddForward c params in_data req out_data th).error = none := by
  unfold DNNLQuantizedElemwiseAddForward
  rw [if_neg (by simp [hin]), if_neg (by simp [hout])]

/-- The output arrays after a call that passes both checks: the result tensor is
handed to the accelerated sum, the two range scalars are overwritten. -/
theorem forward_out_data (c : RangeConstants) (params : QuantizeElemwiseAddParam)
    (in_data : List NDArray) (req : List OpReqType) (out_data : List NDArray) (th : ThreadState)
    (hin : in_data.length = 6) (hout : out_data.length = 3) :
    (DNNLQuantizedElemwiseAddForward c params in_data req out_data th).out_data =
      [out_data.getD kOut default,
       (out_data.getD kMin default).setScalar (forwardLocals c params in_data out_data).output_min,
       (out_data.getD kMax default).setScalar
         (forwardLocals c params in_data out_data).output_max] := by
  unfold DNNLQuantizedElemwiseAddForward
  rw [if_neg (by simp [hin]), if_neg (by simp [hout])]
  obtain ⟨C, Cmin, Cmax, rfl⟩ := List.length_eq_three.mp hout
  rfl

/-- The concrete constants are positive. -/
theorem stdRanges_positive : stdRanges.Positive := by
  unfold RangeConstants.Positive stdRanges
  norm_num

/-- The locals of a calibrated call, spelled out. -/
theorem forwardLocals_calibrated (c : RangeConstants) (mn mx : ℚ)
    (in_data out_data : List NDArray) :
    let l := forwardLocals c { min_calib_range := some mn, max_calib_range := some mx } in_data
      out_data
    let A := in_data.getD kDataA default
    let B := in_data.getD kDataB default
    l.output_data_range =
      (if (out_data.getD kOut default).dtype = TypeFlag.kInt8 then c.kInt8Range
       else if (out_data.getD kOut default).dtype = TypeFlag.kUint8 then c.kUint8Range
       else c.kInt32Range) ∧
    l.out_data_scale = l.output_data_range / MaxAbs mn mx ∧
    l.A_scale =
      GetScale c A (in_data.getD kAMin default).scalar (in_data.getD kAMax default).scalar ∧
    l.B_scale =
      GetScale c B (in_data.getD kBMin default).scalar (in_data.getD kBMax default).scalar ∧
    (A.dtype = B.dtype →
      l.scales = [l.out_data_scale / l.A_scale, l.out_data_scale / l.B_scale] ∧
      l.u8_reorder_scale = none) ∧
    (A.dtype ≠ B.dtype → A.dtype = TypeFlag.kInt8 →
      l.scales = [l.out_data_scale / l.A_scale, 1] ∧
      l.u8_reorder_scale = some (l.out_data_scale / l.B_scale)) ∧
    (A.dtype ≠ B.dtype → A.dtype ≠ TypeFlag.kInt8 →
      l.scales = [1, l.out_data_scale / l.B_scale] ∧
      l.u8_reorder_scale = some (l.out_data_scale / l.A_scale)) := by
  intro l A B
  by_cases hd : A.dtype = B.dtype
  · have hl : l = forwardLocals c { min_calib_range := some mn, max_calib_range := some mx }
        in_data out_data := rfl
    clear_value l
    unfold forwardLocals at hl
    dsimp only at hl
    rw [if_neg (not_not.mpr hd)] at hl
    subst hl
    refine ⟨rfl, rfl, rfl, rfl, fun _ => ⟨rfl, rfl⟩, fun h => absurd hd h, fun h => absurd hd h⟩
  · have hl : l = forwardLocals c { min_calib_range := some mn, max_calib_range := some mx }
        in_data out_data := rfl
    clear_value l
    unfold forwardLocals at hl
    dsimp only at hl
    rw [if_pos hd] at hl
    subst hl
    refine ⟨rfl, rfl, rfl, rfl, fun h => absurd h hd, fun _ h8 => ?_, fun _ h8 => ?_⟩
    · have hb : decide ((in_data.getD kDataA default).dtype = TypeFlag.kInt8) = true :=
        decide_eq_true h8
      simp only [hb, QuantizeElemwiseAddParam.calibrated, Option.isSome, Bool.and_self, if_true,
        List.replicate, List.set]
      refine ⟨?_, ?_⟩ <;> first | rfl | trivial
    · have hb : decide ((in_data.getD kDataA default).dtype = TypeFlag.kInt8) = false :=
        decide_eq_false h8
      simp only [hb, QuantizeElemwiseAddParam.calibrated, Option.isSome, Bool.and_self, if_true,
        List.replicate, List.set, Bool.false_eq_true, if_false]
      refine ⟨?_, ?_⟩ <;> first | rfl | trivial

/-- With a calibration bound missing the call is in dynamic mode. -/
theorem calibrated_eq_false (params : QuantizeElemwiseAddParam)
    (hcal : params.min_calib_range = none ∨ params.max_calib_range = none) :
    params.calibrated = false := by
  unfold QuantizeElemwiseAddParam.calibrated
  rcases hcal with h | h <;> simp [h]

/-- The scales of a call in dynamic mode, branch by branch, as the source computes them. -/
theorem forwardLocals_dynamic (c : RangeConstants) (params : QuantizeElemwiseAddParam)
    (in_data out_data : List NDArray) (hcal : params.calibrated = false) :
    let l := forwardLocals c params in_data out_data
    let A := in_data.getD kDataA default
    let B := in_data.getD kDataB default
    let s := l.dataA_absmax + l.dataB_absmax
    l.dataA_absmax =
      MaxAbs (in_data.getD kAMin default).scalar (in_data.getD kAMax default).scalar ∧
    l.dataB_absmax =
      MaxAbs (in_data.getD kBMin default).scalar (in_data.getD kBMax default).scalar ∧
    l.dataA_range = (if A.dtype = TypeFlag.kInt8 then c.kInt8Range else c.kUint8Range) ∧
    (A.dtype = B.dtype →
      l.scales = [l.dataA_absmax * l.output_data_range / (s * l.dataA_range),
        l.dataB_absmax * l.output_data_range / (s * l.dataA_range)] ∧
      l.u8_reorder_scale = none) ∧
    (A.dtype ≠ B.dtype → A.dtype = TypeFlag.kInt8 →
      l.scales = [l.dataA_absmax * l.output_data_range / (s * l.dataA_range), 1] ∧
      l.u8_reorder_scale = some (l.dataB_absmax * l.output_data_range / (s * c.kUint8Range))) ∧
    (A.dtype ≠ B.dtype → A.dtype ≠ TypeFlag.kInt8 →
      l.scales = [1, l.dataB_absmax * l.output_data_range / (s * c.kInt8Range)] ∧
      l.u8_reorder_scale = some (l.dataA_absmax * l.output_data_range / (s * l.dataA_range))) := by
  intro l A B s
  have hl : l = forwardLocals c params in_data out_data := rfl
  have hs : s = l.dataA_absmax + l.dataB_absmax := rfl
  clear_value s l
  subst hs
  unfold forwardLocals at hl
  dsimp only at hl
  by_cases hd : A.dtype = B.dtype
  · rw [if_neg (not_not.mpr hd)] at hl
    subst hl
    refine ⟨rfl, rfl, ?_, fun _ => ⟨?_, rfl⟩, fun h => absurd hd h, fun h => absurd hd h⟩
    · by_cases h8 : A.dtype = TypeFlag.kInt8
      · simp only [decide_eq_true h8, if_true, if_pos h8]
      · simp only [decide_eq_false h8, Bool.false_eq_true, if_false, if_neg h8]
    · simp only [hcal, Bool.false_eq_true, if_false, List.replicate, List.set]
  · rw [if_pos hd] at hl
    subst hl
    refine ⟨rfl, rfl, ?_, fun h => absurd h hd, fun _ h8 => ?_, fun _ h8 => ?_⟩
    · by_cases h8 : A.dtype = TypeFlag.kInt8
      · simp only [decide_eq_true h8, if_true, if_pos h8]
      · simp only [decide_eq_false h8, Bool.false_eq_true, if_false, if_neg h8]
    · have hb : decide ((in_data.getD kDataA default).dtype = TypeFlag.kInt8) = true :=
        decide_eq_true h8
      simp only [hb, hcal, Bool.false_eq_true, if_false, if_true, List.replicate, List.set]
      refine ⟨?_, ?_⟩ <;> first | rfl | trivial
    · have hb : decide ((in_data.getD kDataA default).dtype = TypeFlag.kInt8) = false :=
        decide_eq_false h8
      simp only [hb, hcal, Bool.false_eq_true, if_false, List.replicate, List.set]
      refine ⟨?_, ?_⟩ <;> first | rfl | trivial

/-- An absolute maximum is never negative. -/
theorem MaxAbs_nonneg (a b : ℚ) : 0 ≤ MaxAbs a b := le_max_of_le_left (abs_nonneg a)

/-- A lookup succeeds exactly on the keys of the map. -/
theorem findFwd_eq_none_iff (fwds : List (OpSignature × DNNLQuantizedElemwiseAddFwd))
    (key : OpSignature) : findFwd fwds key = none ↔ key ∉ fwds.map Prod.fst := by
  unfold findFwd
  induction fwds with
  | nil => simp
  | cons e rest ih =>
    by_cases h : e.1 = key
    · simp [List.find?, h]
    · have h' : ¬ key = e.1 := fun h2 => h h2.symm
      simpa [List.find?, h, h'] using ih

/-- A lookup in a map with a new first entry. -/
theorem findFwd_cons (fwds : List (OpSignature × DNNLQuantizedElemwiseAddFwd))
    (k key : OpSignature) (fwd : DNNLQuantizedElemwiseAddFwd) :
    findFwd ((k, fwd) :: fwds) key = if k = key then some fwd else findFwd fwds key := by
  unfold findFwd
  by_cases h : k = key <;> simp [List.find?, h]

/-- A hit returns the stored plan and leaves the thread as it was. -/
theorem run_hit (a : GetCall) (th : ThreadState) (fwd : DNNLQuantizedElemwiseAddFwd)
    (h : findFwd th.fwds a.key = some fwd) : a.run th = (fwd, th) := by
  unfold GetCall.run GetQuantizedElemwiseAddForward
  have h' : findFwd th.fwds (planKey a.in_data a.out_data) = some fwd := h
  simp only [h']

/-- A miss constructs one plan from the arguments of the call and stores it under the key. -/
theorem run_miss (a : GetCall) (th : ThreadState) (h : findFwd th.fwds a.key = none) :
    a.run th =
      (DNNLQuantizedElemwiseAddFwd.new a.output_desc a.scales a.data_md,
       { th with
         fwds := (a.key, DNNLQuantizedElemwiseAddFwd.new a.output_desc a.scales a.data_md) ::
           th.fwds,
         constructed := th.constructed + 1 }) := by
  unfold GetCall.run GetQuantizedElemwiseAddForward
  have h' : findFwd th.fwds (planKey a.in_data a.out_data) = none := h
  simp only [h', AddToCache]
  rfl

/-- After a call, the key of the call is mapped to the plan the call returned. -/
theorem run_find_self (a : GetCall) (th : ThreadState) :
    findFwd (a.run th).2.fwds a.key = some (a.run th).1 := by
  cases h : findFwd th.fwds a.key with
  | some fwd => rw [run_hit a th fwd h]; exact h
  | none => rw [run_miss a th h]; simp [findFwd_cons]

/-- A call never changes what another lookup finds. -/
theorem run_find_mono (a : GetCall) (th : ThreadState) (k : OpSignature)
    (fwd : DNNLQuantizedElemwiseAddFwd) (h : findFwd th.fwds k = some fwd) :
    findFwd (a.run th).2.fwds k = some fwd := by
  cases ha : findFwd th.fwds a.key with
  | some p => rw [run_hit a th p ha]; exact h
  | none =>
    rw [run_miss a th ha]
    simp only [findFwd_cons]
    by_cases hk : a.key = k
    · rw [hk] at ha; rw [ha] at h; cases h
    · rw [if_neg hk]; exact h

/-- A key that is mapped when a sequence of calls starts is answered with the mapped plan by
every call of the sequence that builds it. -/
theorem runCalls_find (calls : List GetCall) :
    ∀ (th : ThreadState) (k : OpSignature) (fwd : DNNLQuantizedElemwiseAddFwd),
      findFwd th.fwds k = some fwd → ∀ (j : Nat) (a : GetCall), calls[j]? = some a → a.key = k →
        (runCalls th calls).1[j]? = some fwd := by
  induction calls with
  | nil => intro th k fwd _ j a hj; simp at hj
  | cons b rest ih =>
    intro th k fwd h j a hj hk
    cases j with
    | zero =>
      simp only [List.getElem?_cons_zero, Option.some.injEq] at hj
      subst hj
      subst hk
      simp only [runCalls, List.getElem?_cons_zero, Option.some.injEq]
      rw [run_hit b th fwd h]
    | succ j =>
      simp only [List.getElem?_cons_succ] at hj
      simp only [runCalls, List.getElem?_cons_succ]
      exact ih (b.run th).2 k fwd (run_find_mono b th k fwd h) j a hj hk

/-- Two calls of a sequence that build the same key return the same plan. -/
theorem runCalls_same_key (calls : List GetCall) :
    ∀ (th : ThreadState) (i j : Nat) (a b : GetCall), i < j → calls[i]? = some a →
      calls[j]? = some b → a.key = b.key →
      (runCalls th calls).1[j]? = (runCalls th calls).1[i]? ∧
      (runCalls th calls).1[i]? ≠ none := by
  induction calls with
  | nil => intro th i j a b _ hi; simp at hi
  | cons c rest ih =>
    intro th i j a b hij hi hj hk
    cases j with
    | zero => omega
    | succ j =>
      cases i with
      | zero =>
        simp only [List.getElem?_cons_zero, Option.some.injEq] at hi
        subst hi
        simp only [List.getElem?_cons_succ] at hj
        simp only [runCalls, List.getElem?_cons_succ, List.getElem?_cons_zero]
        refine ⟨?_, by simp⟩
        exact runCalls_find rest (c.run th).2 c.key (c.run th).1 (run_find_self c th) j b hj
          hk.symm
      | succ i =>
        simp only [List.getElem?_cons_succ] at hi hj
        simp only [runCalls, List.getElem?_cons_succ]
        exact ih (c.run th).2 i j a b (by omega) hi hj hk

/-- A call keeps the counter and the map in agreement and adds at most its own key. -/
theorem run_inv (a : GetCall) (th : ThreadState) (h : CacheInv th) :
    CacheInv (a.run th).2 ∧
    ((a.run th).2.fwds.map Prod.fst).toFinset = insert a.key (th.fwds.map Prod.fst).toFinset := by
  cases ha : findFwd th.fwds a.key with
  | some p =>
    rw [run_hit a th p ha]
    refine ⟨h, ?_⟩
    have hmem : a.key ∈ th.fwds.map Prod.fst := by
      by_contra hn
      rw [(findFwd_eq_none_iff th.fwds a.key).mpr hn] at ha
      cases ha
    rw [Finset.insert_eq_of_mem (List.mem_toFinset.mpr hmem)]
  | none =>
    rw [run_miss a th ha]
    have hn := (findFwd_eq_none_iff th.fwds a.key).mp ha
    refine ⟨⟨?_, ?_⟩, ?_⟩
    · simp [h.1]
    · simp only [List.map_cons]
      exact List.nodup_cons.mpr ⟨hn, h.2⟩
    · simp

/-- After a sequence of calls the keys of the map are the keys it had and the keys built. -/
theorem runCalls_inv (calls : List GetCall) :
    ∀ th : ThreadState, CacheInv th →
      CacheInv (runCalls th calls).2 ∧
      ((runCalls th calls).2.fwds.map Prod.fst).toFinset =
        (calls.map GetCall.key).toFinset ∪ (th.fwds.map Prod.fst).toFinset := by
  induction calls with
  | nil => intro th h; simp [runCalls, h]
  | cons a rest ih =>
    intro th h
    obtain ⟨h1, h2⟩ := run_inv a th h
    obtain ⟨h3, h4⟩ := ih (a.run th).2 h1
    refine ⟨h3, ?_⟩
    simp only [runCalls]
    rw [h4, h2]
    simp only [List.map_cons, List.toFinset_cons]
    ext x
    simp only [Finset.mem_union, Finset.mem_insert]
    tauto

/-- From a fresh thread, as many plans are constructed as there are distinct keys. -/
theorem runCalls_constructed (calls : List GetCall) :
    (runCalls ThreadState.init calls).2.constructed = (calls.map GetCall.key).dedup.length := by
  have hinit : CacheInv ThreadState.init := by
    unfold CacheInv ThreadState.init
    simp
  obtain ⟨⟨h1, h2⟩, h3⟩ := runCalls_inv calls ThreadState.init hinit
  rw [h1, ← List.card_toFinset, ← List.length_map (runCalls ThreadState.init calls).2.fwds Prod.fst,
    ← List.toFinset_card_of_nodup h2, h3]
  simp [ThreadState.init]

/-- Signing a vector of tensors appends one element per tensor. -/
theorem AddSignArrs_eles (arrs : List NDArray) :
    ∀ key : OpSignature, (key.AddSignArrs arrs).eles =
      key.eles ++ arrs.map (fun a => SigEle.arr a.sig.1 a.sig.2) := by
  induction arrs with
  | nil => intro key; simp [OpSignature.AddSignArrs]
  | cons a rest ih =>
    intro key
    have h := ih (key.AddSignArr a)
    simp only [OpSignature.AddSignArrs, List.foldl_cons] at h ⊢
    rw [h]
    simp [OpSignature.AddSignArr, NDArray.sig]

/-- The key of a call is made of the dtypes and shapes of the tensors and of the six range
scalars, and of nothing else. -/
theorem planKey_eles (in_data out_data : List NDArray) :
    (planKey in_data out_data).eles =
      in_data.map (fun a => SigEle.arr a.sig.1 a.sig.2) ++
      [SigEle.val (in_data.getD kAMin default).scalar,
       SigEle.val (in_data.getD kAMax default).scalar,
       SigEle.val (in_data.getD kBMin default).scalar,
       SigEle.val (in_data.getD kBMax default).scalar] ++
      out_data.map (fun a => SigEle.arr a.sig.1 a.sig.2) ++
      [SigEle.val (out_data.getD kMin default).scalar,
       SigEle.val (out_data.getD kMax default).scalar] := by
  unfold planKey
  simp only [OpSignature.AddSignVal, AddSignArrs_eles, OpSignature.empty, List.nil_append,
    List.append_assoc, List.cons_append]

/-- Calls that agree on dtypes, shapes and the six range scalars build the same key. -/
theorem planKey_congr (in1 out1 in2 out2 : List NDArray)
    (hin : in1.map NDArray.sig = in2.map NDArray.sig)
    (hAmin : (in1.getD kAMin default).scalar = (in2.getD kAMin default).scalar)
    (hAmax : (in1.getD kAMax default).scalar = (in2.getD kAMax default).scalar)
    (hBmin : (in1.getD kBMin default).scalar = (in2.getD kBMin default).scalar)
    (hBmax : (in1.getD kBMax default).scalar = (in2.getD kBMax default).scalar)
    (hout : out1.map NDArray.sig = out2.map NDArray.sig)
    (hmin : (out1.getD kMin default).scalar = (out2.getD kMin default).scalar)
    (hmax : (out1.getD kMax default).scalar = (out2.getD kMax default).scalar) :
    planKey in1 out1 = planKey in2 out2 := by
  have e : ∀ l : List NDArray, l.map (fun a => SigEle.arr a.sig.1 a.sig.2) =
      (l.map NDArray.sig).map (fun s => SigEle.arr s.1 s.2) := by
    intro l; simp [List.map_map, Function.comp_def]
  have h1 := planKey_eles in1 out1
  have h2 := planKey_eles in2 out2
  rw [e, e, hin, hout, hAmin, hAmax, hBmin, hBmax, hmin, hmax, ← e, ← e, ← h2] at h1
  cases hk1 : planKey in1 out1
  cases hk2 : planKey in2 out2
  rw [hk1, hk2] at h1
  simp only at h1
  rw [h1]

/-- The kernel fails exactly on a wrong number of inputs or of outputs. -/
theorem forward_error_iff (c : RangeConstants) (params : QuantizeElemwiseAddParam)
    (in_data : List NDArray) (req : List OpReqType) (out_data : List NDArray) (th : ThreadState) :
    (DNNLQuantizedElemwiseAddForward c params in_data req out_data th).error ≠ none ↔
      (in_data.length ≠ 6 ∨ out_data.length ≠ 3) := by
  unfold DNNLQuantizedElemwiseAddForward
  by_cases hin : in_data.length = 6
  · by_cases hout : out_data.length = 3
    · rw [if_neg (by simp [hin]), if_neg (by simp [hout])]
      simp [hin, hout]
    · rw [if_neg (by simp [hin]), if_pos hout]
      simp [hout]
  · rw [if_pos hin]
    simp [hin]

/-- The divisors of a call in dynamic mode. -/
theorem forwardDivisors_dynamic (c : RangeConstants) (params : QuantizeElemwiseAddParam)
    (in_data out_data : List NDArray) (hcal : params.calibrated = false) :
    ∃ r1 r2 : ℚ, forwardDivisors c params in_data out_data =
      [MaxAbs (in_data.getD kAMin default).scalar (in_data.getD kAMax default).scalar,
       MaxAbs (in_data.getD kBMin default).scalar (in_data.getD kBMax default).scalar,
       (MaxAbs (in_data.getD kAMin default).scalar (in_data.getD kAMax default).scalar +
         MaxAbs (in_data.getD kBMin default).scalar (in_data.getD kBMax default).scalar) * r1,
       (MaxAbs (in_data.getD kAMin default).scalar (in_data.getD kAMax default).scalar +
         MaxAbs (in_data.getD kBMin default).scalar (in_data.getD kBMax default).scalar) * r2] := by
  obtain ⟨hA, hB, _⟩ := forwardLocals_dynamic c params in_data out_data hcal
  unfold forwardDivisors
  simp only [hcal, Bool.false_eq_true, if_false, hA, hB, List.append_nil]
  split
  · split
    · exact ⟨_, _, rfl⟩
    · exact ⟨_, _, rfl⟩
  · exact ⟨_, _, rfl⟩

/-- The range scalars a call writes are the output minimum and maximum it derived. -/
theorem forward_range_scalars (c : RangeConstants) (params : QuantizeElemwiseAddParam)
    (in_data : List NDArray) (req : List OpReqType) (out_data : List NDArray) (th : ThreadState)
    (hin : in_data.length = 6) (hout : out_data.length = 3) :
    ((DNNLQuantizedElemwiseAddForward c params in_data req out_data th).out_data.getD kMin
        default).scalar = (forwardLocals c params in_data out_data).output_min ∧
    ((DNNLQuantizedElemwiseAddForward c params in_data req out_data th).out_data.getD kMax
        default).scalar = (forwardLocals c params in_data out_data).output_max := by
  rw [forward_out_data c params in_data req out_data th hin hout]
  exact ⟨rfl, rfl⟩

/-- The output range derived in dynamic mode. -/
theorem forwardLocals_dynamic_range (c : RangeConstants) (params : QuantizeElemwiseAddParam)
    (in_data out_data : List NDArray)
    (hcal : params.min_calib_range = none ∨ params.max_calib_range = none) :
    (forwardLocals c params in_data out_data).output_max =
      MaxAbs (in_data.getD kAMin default).scalar (in_data.getD kAMax default).scalar +
        MaxAbs (in_data.getD kBMin default).scalar (in_data.getD kBMax default).scalar ∧
    (forwardLocals c params in_data out_data).output_min =
      -(MaxAbs (in_data.getD kAMin default).scalar (in_data.getD kAMax default).scalar +
        MaxAbs (in_data.getD kBMin default).scalar (in_data.getD kBMax default).scalar) := by
  rw [forwardLocals_output_max, forwardLocals_output_min]
  rcases hcal with h | h
  · rw [h]; cases params.max_calib_range <;> exact ⟨rfl, rfl⟩
  · rw [h]; exact ⟨rfl, rfl⟩

/-- The memory handles and the reorder of a call, branch by branch. -/
theorem forwardLocals_handles (c : RangeConstants) (params : QuantizeElemwiseAddParam)
    (in_data out_data : List NDArray) :
    let l := forwardLocals c params in_data out_data
    let A := in_data.getD kDataA default
    let B := in_data.getD kDataB default
    (A.dtype = B.dtype →
      l.reorder = none ∧ l.u8_reorder_scale = none ∧
      l.dataA_mem = A.GetDNNLData ∧ l.dataB_mem = B.GetDNNLData) ∧
    (A.dtype ≠ B.dtype → A.dtype = TypeFlag.kInt8 →
      l.u8_reorder_scale.isSome = true ∧
      l.reorder = some (PrimArgs.reorder
        { src_desc := B.GetDNNLData.desc, dst_desc := A.GetDNNLData.desc,
          output_scales := l.u8_reorder_scale.toList }
        B.GetDNNLData (TmpMemMgr.Alloc A.GetDNNLData.desc)) ∧
      l.dataA_mem = A.GetDNNLData ∧ l.dataB_mem = TmpMemMgr.Alloc A.GetDNNLData.desc) ∧
    (A.dtype ≠ B.dtype → A.dtype ≠ TypeFlag.kInt8 →
      l.u8_reorder_scale.isSome = true ∧
      l.reorder = some (PrimArgs.reorder
        { src_desc := A.GetDNNLData.desc, dst_desc := B.GetDNNLData.desc,
          output_scales := l.u8_reorder_scale.toList }
        A.GetDNNLData (TmpMemMgr.Alloc B.GetDNNLData.desc)) ∧
      l.dataA_mem = TmpMemMgr.Alloc B.GetDNNLData.desc ∧ l.dataB_mem = B.GetDNNLData) := by
  intro l A B
  have hl : l = forwardLocals c params in_data out_data := rfl
  clear_value l
  unfold forwardLocals at hl
  dsimp only at hl
  by_cases hd : A.dtype = B.dtype
  · rw [if_neg (not_not.mpr hd)] at hl
    subst hl
    exact ⟨fun _ => ⟨rfl, rfl, rfl, rfl⟩, fun h => absurd hd h, fun h => absurd hd h⟩
  · rw [if_pos hd] at hl
    subst hl
    refine ⟨fun h => absurd h hd, fun _ h8 => ?_, fun _ h8 => ?_⟩
    · have hb : decide ((in_data.getD kDataA default).dtype = TypeFlag.kInt8) = true :=
        decide_eq_true h8
      simp only [hb, if_true]
      refine ⟨?_, ?_, ?_, ?_⟩ <;> first | rfl | trivial
    · have hb : decide ((in_data.getD kDataA default).dtype = TypeFlag.kInt8) = false :=
        decide_eq_false h8
      simp only [hb, Bool.false_eq_true, if_false]
      refine ⟨?_, ?_, ?_, ?_⟩ <;> first | rfl | trivial

/-- A lookup does not touch the stream. -/
theorem get_forward_stream (output_desc : dnnl.memory_desc) (scales : List ℚ)
    (in_data out_data : List NDArray) (data_md : List dnnl.memory_desc) (th : ThreadState) :
    (GetQuantizedElemwiseAddForward output_desc scales in_data out_data data_md th).2.stream =
      th.stream := by
  unfold GetQuantizedElemwiseAddForward
  dsimp only
  split <;> rfl

/-- A lookup does not touch the submitted primitives. -/
theorem get_forward_submitted (output_desc : dnnl.memory_desc) (scales : List ℚ)
    (in_data out_data : List NDArray) (data_md : List dnnl.memory_desc) (th : ThreadState) :
    (GetQuantizedElemwiseAddForward output_desc scales in_data out_data data_md th).2.submitted =
      th.submitted := by
  unfold GetQuantizedElemwiseAddForward
  dsimp only
  split <;> rfl

/-- The thread after a call that passes both checks: the reorder of the cross-type path,
if any, then the fused sum on the two operand handles, then the commit of the output, all
submitted; the plan is the one `GetQuantizedElemwiseAddForward` returns for the scales and
the operand descriptors of the call. -/
theorem forward_thread (c : RangeConstants) (params : QuantizeElemwiseAddParam)
    (in_data : List NDArray) (req : List OpReqType) (out_data : List NDArray) (th : ThreadState)
    (hin : in_data.length = 6) (hout : out_data.length = 3) :
    let l := forwardLocals c params in_data out_data
    let r := GetQuantizedElemwiseAddForward
      { dims := (in_data.getD kDataA default).shape, dtype := l.output_data_type,
        format := dnnl.format_tag.any }
      l.scales in_data out_data [l.dataA_mem.desc, l.dataB_mem.desc]
      { th with stream := th.stream ++ l.reorder.toList }
    (DNNLQuantizedElemwiseAddForward c params in_data req out_data th).thread =
      { fwds := r.2.fwds, constructed := r.2.constructed, stream := [],
        submitted := th.submitted ++ (th.stream ++ l.reorder.toList ++
          [PrimArgs.sum r.1.GetFwd l.dataA_mem l.dataB_mem
            { desc := r.1.fwd_pd.dst_desc,
              handle := dnnl.storage.tensor (out_data.getD kOut default) },
           PrimArgs.commit (out_data.getD kOut default) (req.headD OpReqType.kNullOp)
            { desc := r.1.fwd_pd.dst_desc,
              handle := dnnl.storage.tensor (out_data.getD kOut default) }]) } := by
  intro l r
  unfold DNNLQuantizedElemwiseAddForward
  rw [if_neg (by simp [hin]), if_neg (by simp [hout])]
  simp only [l, r]
  generalize (forwardLocals c params in_data out_data).reorder = ro
  cases ro <;>
    simp only [ThreadState.Submit, ThreadState.CommitOutput, ThreadState.RegisterPrimArgs,
      CreateDNNLMem, get_forward_stream, get_forward_submitted, List.append_assoc,
      List.cons_append, List.nil_append, Option.toList, List.append_nil]

/-- The output range constant and the output element type of a call depend on the dtype of
the result tensor only. -/
theorem forwardLocals_output_domain (c : RangeConstants) (params : QuantizeElemwiseAddParam)
    (in_data out_data : List NDArray) :
    (forwardLocals c params in_data out_data).output_data_range =
      (if (out_data.getD kOut default).dtype = TypeFlag.kInt8 then c.kInt8Range
       else if (out_data.getD kOut default).dtype = TypeFlag.kUint8 then c.kUint8Range
       else c.kInt32Range) ∧
    (forwardLocals c params in_data out_data).output_data_type =
      (if (out_data.getD kOut default).dtype = TypeFlag.kInt8 then dnnl.data_type.s8
       else if (out_data.getD kOut default).dtype = TypeFlag.kUint8 then dnnl.data_type.u8
       else dnnl.data_type.s32) := by
  unfold forwardLocals
  dsimp only
  split <;> exact ⟨rfl, rfl⟩

/-- A plan constructed by a lookup is built from the arguments of the lookup. -/
theorem get_forward_miss (output_desc : dnnl.memory_desc) (scales : List ℚ)
    (in_data out_data : List NDArray) (data_md : List dnnl.memory_desc) (th : ThreadState)
    (h : findFwd th.fwds (planKey in_data out_data) = none) :
    (GetQuantizedElemwiseAddForward output_desc scales in_data out_data data_md th).1 =
      DNNLQuantizedElemwiseAddFwd.new output_desc scales data_md := by
  unfold GetQuantizedElemwiseAddForward
  simp only [h]
  rfl

/-- The reorder scale of the spec's scenario in dynamic mode with an int32 result tensor. -/
theorem scenario_int32_reorder_scale :
    (forwardLocals stdRanges noCalib scenarioIn int32Out).u8_reorder_scale =
      some (100 * 2147483647 / (150 * 255)) := by
  obtain ⟨hA, hB, hr, _, _, h⟩ := forwardLocals_dynamic stdRanges noCalib scenarioIn int32Out rfl
  have h2 := (h (by decide) (by decide)).2
  have hR := (forwardLocals_output_domain stdRanges noCalib scenarioIn int32Out).1
  rw [if_neg (by decide), if_neg (by decide)] at hR
  rw [if_neg (by decide)] at hr
  have hA' : MaxAbs (scenarioIn.getD kAMin default).scalar (scenarioIn.getD kAMax default).scalar
      = 100 := by with_unfolding_all decide
  have hB' : MaxAbs (scenarioIn.getD kBMin default).scalar (scenarioIn.getD kBMax default).scalar
      = 50 := by with_unfolding_all decide
  rw [h2, hA, hB, hr, hR, hA', hB']
  norm_num [stdRanges]

/-- The dynamic formula is the calibrated formula for the calibration absolute maximum `s`. -/
theorem dynamic_eq_calibrated_formula (a s r k : ℚ) :
    a * r / (s * k) = r / s / (k / a) := by
  rw [div_div_eq_mul_div, div_mul_eq_mul_div, div_div, mul_comm]

/-- The absolute maximum of the symmetric range [-s, s] with `s` not negative. -/
theorem MaxAbs_neg_self (s : ℚ) (hs : 0 ≤ s) : MaxAbs (-s) s = s := by
  unfold MaxAbs
  rw [abs_neg, max_self, abs_of_nonneg hs]

/-- An operand scale times its rescale factor gives back the output scale. -/
theorem rescale_mul_scale (o r m : ℚ) (hr : 0 < r) (hm : 0 < m) : o / (r / m) * (r / m) = o :=
  div_mul_cancel₀ o (ne_of_gt (div_pos hr hm))

/-- The rescale factors and the reorder scale of dynamic mode are those of calibrated mode
for the calibration bounds minus and plus the sum of the absolute maxima. -/
theorem dynamic_scales_eq_sumCalib (c : RangeConstants) (params : QuantizeElemwiseAddParam)
    (in_data out_data : List NDArray)
    (hcal : params.min_calib_range = none ∨ params.max_calib_range = none)
    (hdA : (in_data.getD kDataA default).dtype = TypeFlag.kInt8 ∨
      (in_data.getD kDataA default).dtype = TypeFlag.kUint8)
    (hdB : (in_data.getD kDataB default).dtype = TypeFlag.kInt8 ∨
      (in_data.getD kDataB default).dtype = TypeFlag.kUint8) :
    (forwardLocals c params in_data out_data).scales =
      (forwardLocals c (sumCalib in_data) in_data out_data).scales ∧
    (forwardLocals c params in_data out_data).u8_reorder_scale =
      (forwardLocals c (sumCalib in_data) in_data out_data).u8_reorder_scale := by
  unfold sumCalib
  obtain ⟨hAm, hBm, hAr, hsame, hA8, hB8⟩ :=
    forwardLocals_dynamic c params in_data out_data (calibrated_eq_false params hcal)
  obtain ⟨hRc, hos, hAs, hBs, csame, cA8, cB8⟩ := forwardLocals_calibrated c
    (-(MaxAbs (in_data.getD kAMin default).scalar (in_data.getD kAMax default).scalar +
      MaxAbs (in_data.getD kBMin default).scalar (in_data.getD kBMax default).scalar))
    (MaxAbs (in_data.getD kAMin default).scalar (in_data.getD kAMax default).scalar +
      MaxAbs (in_data.getD kBMin default).scalar (in_data.getD kBMax default).scalar)
    in_data out_data
  have hRd := (forwardLocals_output_domain c params in_data out_data).1
  have hs0 := add_nonneg
    (MaxAbs_nonneg (in_data.getD kAMin default).scalar (in_data.getD kAMax default).scalar)
    (MaxAbs_nonneg (in_data.getD kBMin default).scalar (in_data.getD kBMax default).scalar)
  rw [MaxAbs_neg_self _ hs0, hRc, ← hRd] at hos
  by_cases hd : (in_data.getD kDataA default).dtype = (in_data.getD kDataB default).dtype
  · obtain ⟨h1, h2⟩ := hsame hd
    obtain ⟨c1, c2⟩ := csame hd
    refine ⟨?_, h2.trans c2.symm⟩
    rw [h1, c1, hos, hAs, hBs, hAm, hBm, hAr, GetScale, GetScale]
    simp only [hd, dynamic_eq_calibrated_formula]
  · by_cases h8 : (in_data.getD kDataA default).dtype = TypeFlag.kInt8
    · obtain ⟨h1, h2⟩ := hA8 hd h8
      obtain ⟨c1, c2⟩ := cA8 hd h8
      have hnB : (in_data.getD kDataB default).dtype ≠ TypeFlag.kInt8 := fun h => hd (h8.trans h.symm)
      refine ⟨?_, ?_⟩
      · rw [h1, c1, hos, hAs, hAm, hBm, hAr, GetScale]
        simp only [dynamic_eq_calibrated_formula]
      · rw [h2, c2, hos, hBs, hAm, hBm, GetScale]
        simp only [if_neg hnB, dynamic_eq_calibrated_formula]
    · obtain ⟨h1, h2⟩ := hB8 hd h8
      obtain ⟨c1, c2⟩ := cB8 hd h8
      have hB8' : (in_data.getD kDataB default).dtype = TypeFlag.kInt8 := by
        rcases hdA with hA | hA
        · exact absurd hA h8
        · rcases hdB with hB | hB
          · exact hB
          · exact absurd (hA.trans hB.symm) hd
      refine ⟨?_, ?_⟩
      · rw [h1, c1, hos, hBs, hAm, hBm, GetScale]
        simp only [if_pos hB8', dynamic_eq_calibrated_formula]
      · rw [h2, c2, hos, hAs, hAm, hBm, hAr, GetScale]
        simp only [dynamic_eq_calibrated_formula]

/-- An operand scale is positive when the range constants and the absolute maximum are. -/
theorem GetScale_pos (c : RangeConstants) (data : NDArray) (mn mx : ℚ) (hc : c.Positive)
    (h : 0 < MaxAbs mn mx) : 0 < GetScale c data mn mx := by
  unfold GetScale
  dsimp only
  split
  · exact div_pos hc.1 h
  · exact div_pos hc.2.1 h

/-- The divisors of a call in dynamic mode: the two absolute maxima, then twice their sum
times a range constant of the 8-bit types. -/
theorem forwardDivisors_dynamic_ranges (c : RangeConstants) (params : QuantizeElemwiseAddParam)
    (in_data out_data : List NDArray) (hcal : params.calibrated = false) :
    ∃ r1 r2 : ℚ, (r1 = c.kInt8Range ∨ r1 = c.kUint8Range) ∧
      (r2 = c.kInt8Range ∨ r2 = c.kUint8Range) ∧
      forwardDivisors c params in_data out_data =
      [MaxAbs (in_data.getD kAMin default).scalar (in_data.getD kAMax default).scalar,
       MaxAbs (in_data.getD kBMin default).scalar (in_data.getD kBMax default).scalar,
       (MaxAbs (in_data.getD kAMin default).scalar (in_data.getD kAMax default).scalar +
         MaxAbs (in_data.getD kBMin default).scalar (in_data.getD kBMax default).scalar) * r1,
       (MaxAbs (in_data.getD kAMin default).scalar (in_data.getD kAMax default).scalar +
         MaxAbs (in_data.getD kBMin default).scalar (in_data.getD kBMax default).scalar) * r2] := by
  obtain ⟨hA, hB, hr, _⟩ := forwardLocals_dynamic c params in_data out_data hcal
  have hrange : (forwardLocals c params in_data out_data).dataA_range = c.kInt8Range ∨
      (forwardLocals c params in_data out_data).dataA_range = c.kUint8Range := by
    rw [hr]
    split
    · exact Or.inl rfl
    · exact Or.inr rfl
  unfold forwardDivisors
  simp only [hcal, Bool.false_eq_true, if_false, hA, hB, List.append_nil]
  split
  · split
    · exact ⟨_, _, Or.inr rfl, hrange, rfl⟩
    · exact ⟨_, _, hrange, Or.inl rfl, rfl⟩
  · exact ⟨_, _, hrange, hrange, rfl⟩

/-- The divisors of a call in calibrated mode: the two absolute maxima, the absolute maximum
of the calibration bounds, then the two operand scales in the order of the branch taken. -/
theorem forwardDivisors_calibrated (c : RangeConstants) (mn mx : ℚ)
    (in_data out_data : List NDArray) :
    ∃ x y : ℚ,
      ((x = GetScale c (in_data.getD kDataA default) (in_data.getD kAMin default).scalar
            (in_data.getD kAMax default).scalar ∧
          y = GetScale c (in_data.getD kDataB default) (in_data.getD kBMin default).scalar
            (in_data.getD kBMax default).scalar) ∨
        (x = GetScale c (in_data.getD kDataB default) (in_data.getD kBMin default).scalar
            (in_data.getD kBMax default).scalar ∧
          y = GetScale c (in_data.getD kDataA default) (in_data.getD kAMin default).scalar
            (in_data.getD kAMax default).scalar)) ∧
      forwardDivisors c { min_calib_range := some mn, max_calib_range := some mx } in_data
          out_data =
        [MaxAbs (in_data.getD kAMin default).scalar (in_data.getD kAMax default).scalar,
         MaxAbs (in_data.getD kBMin default).scalar (in_data.getD kBMax default).scalar,
         MaxAbs mn mx, x, y] := by
  obtain ⟨_, _, hAs, hBs, _⟩ := forwardLocals_calibrated c mn mx in_data out_data
  have hmin := forwardLocals_output_min c { min_calib_range := some mn, max_calib_range := some mx }
    in_data out_data
  have hmax := forwardLocals_output_max c { min_calib_range := some mn, max_calib_range := some mx }
    in_data out_data
  dsimp only at hmin hmax
  unfold forwardDivisors
  have hcal : QuantizeElemwiseAddParam.calibrated
      { min_calib_range := some mn, max_calib_range := some mx } = true := rfl
  simp only [hcal, if_true, hAs, hBs, hmin, hmax]
  split
  · split
    · exact ⟨_, _, Or.inr ⟨rfl, rfl⟩, rfl⟩
    · exact ⟨_, _, Or.inl ⟨rfl, rfl⟩, rfl⟩
  · exact ⟨_, _, Or.inl ⟨rfl, rfl⟩, rfl⟩

/-- Each operand's absolute maximum is a divisor of every call. -/
theorem absmax_mem_forwardDivisors (c : RangeConstants) (params : QuantizeElemwiseAddParam)
    (in_data out_data : List NDArray) :
    MaxAbs (in_data.getD kAMin default).scalar (in_data.getD kAMax default).scalar ∈
      forwardDivisors c params in_data out_data ∧
    MaxAbs (in_data.getD kBMin default).scalar (in_data.getD kBMax default).scalar ∈
      forwardDivisors c params in_data out_data := by
  unfold forwardDivisors
  simp only [List.cons_append, List.mem_cons, true_or, or_true, and_self]

/-! ## The claims -/

/-- C1: in every call that passes the arity checks and in which the calibration
bounds are not both given, the value written to `result_max` is
`dataA_absmax + dataB_absmax` and the value written to `result_min` is
`-result_max`, where the absolute maxima are `MaxAbs` of the operands' range
scalars. -/
theorem C1_dynamic_output_range (c : RangeConstants) (params : QuantizeElemwiseAddParam)
    (in_data : List NDArray) (req : List OpReqType) (out_data : List NDArray) (th : ThreadState)
    (hin : in_data.length = 6) (hout : out_data.length = 3)
    (hcal : params.min_calib_range = none ∨ params.max_calib_range = none) :
    (DNNLQuantizedElemwiseAddForward c params in_data req out_data th).error = none ∧
    ((DNNLQuantizedElemwiseAddForward c params in_data req out_data th).out_data.getD kMax
        default).scalar =
      MaxAbs (in_data.getD kAMin default).scalar (in_data.getD kAMax default).scalar +
        MaxAbs (in_data.getD kBMin default).scalar (in_data.getD kBMax default).scalar ∧
    ((DNNLQuantizedElemwiseAddForward c params in_data req out_data th).out_data.getD kMin
        default).scalar =
      -((DNNLQuantizedElemwiseAddForward c params in_data req out_data th).out_data.getD kMax
        default).scalar := by
  refine ⟨forward_error_none c params in_data req out_data th hin hout, ?_⟩
  rw [forward_out_data c params in_data req out_data th hin hout]
  simp only [List.getD_cons_succ, List.getD_cons_zero, scalar_setScalar,
    forwardLocals_output_max, forwardLocals_output_min]
  rcases hcal with h | h
  · rw [h]; cases params.max_calib_range <;> simp
  · rw [h]; simp

/-- C1 at the spec's scenario (A uint8 in [0, 100], B int8 in [-50, 50], no
calibration): the range scalars written are -150 and 150. -/
theorem C1_dynamic_output_range_witness :
    (DNNLQuantizedElemwiseAddForward stdRanges noCalib scenarioIn [OpReqType.kWriteTo] scenarioOut
        ThreadState.init).out_data.map NDArray.scalar = [0, -150, 150] ∧
    ((DNNLQuantizedElemwiseAddForward stdRanges noCalib scenarioIn [OpReqType.kWriteTo] scenarioOut
        ThreadState.init).out_data.getD kMax default).scalar =
      MaxAbs (scenarioIn.getD kAMin default).scalar (scenarioIn.getD kAMax default).scalar +
        MaxAbs (scenarioIn.getD kBMin default).scalar (scenarioIn.getD kBMax default).scalar :=
  ⟨by with_unfolding_all decide,
   (C1_dynamic_output_range stdRanges noCalib scenarioIn [OpReqType.kWriteTo] scenarioOut
      ThreadState.init (by decide) (by decide) (Or.inl rfl)).2.1⟩

/-- C2: in every call that passes the arity checks and in which both calibration
bounds are given, the range scalars written are the calibration bounds,
whatever the input ranges and the dtypes of the operands and of the output. -/
theorem C2_calibrated_output_range (c : RangeConstants) (params : QuantizeElemwiseAddParam)
    (in_data : List NDArray) (req : List OpReqType) (out_data : List NDArray) (th : ThreadState)
    (mn mx : ℚ) (hin : in_data.length = 6) (hout : out_data.length = 3)
    (hmin : params.min_calib_range = some mn) (hmax : params.max_calib_range = some mx) :
    (DNNLQuantizedElemwiseAddForward c params in_data req out_data th).error = none ∧
    ((DNNLQuantizedElemwiseAddForward c params in_data req out_data th).out_data.getD kMin
        default).scalar = mn ∧
    ((DNNLQuantizedElemwiseAddForward c params in_data req out_data th).out_data.getD kMax
        default).scalar = mx := by
  refine ⟨forward_error_none c params in_data req out_data th hin hout, ?_⟩
  rw [forward_out_data c params in_data req out_data th hin hout]
  simp only [List.getD_cons_succ, List.getD_cons_zero, scalar_setScalar,
    forwardLocals_output_max, forwardLocals_output_min, hmin, hmax]
  exact ⟨trivial, trivial⟩

/-- C2 at the spec's scenario: calibration [-120, 120] with A in [0, 100] and B in
[-50, 50] writes -120 and 120. -/
theorem C2_calibrated_output_range_witness :
    ((DNNLQuantizedElemwiseAddForward stdRanges calib120 scenarioIn [OpReqType.kWriteTo] scenarioOut
        ThreadState.init).out_data.getD kMin default).scalar = -120 ∧
    ((DNNLQuantizedElemwiseAddForward stdRanges calib120 scenarioIn [OpReqType.kWriteTo] scenarioOut
        ThreadState.init).out_data.getD kMax default).scalar = 120 :=
  (C2_calibrated_output_range stdRanges calib120 scenarioIn [OpReqType.kWriteTo] scenarioOut
      ThreadState.init (-120) 120 (by decide) (by decide) rfl rfl).2

/-- C3: in every call with both calibration bounds given, a non-zero calibration
absolute maximum and non-zero operand absolute maxima, `out_data_scale` is the
output range constant divided by `MaxAbs` of the calibration bounds, the operand
scales are those of `GetScale` (range constant of the operand's dtype divided by
its absolute maximum; non-zero when the range constants are positive), and each
operand's rescale factor is `out_data_scale / operand_scale` unclamped: both
entries of the sum's scale vector when the dtypes agree; on the cross-type path
the entry of the int8 operand and the reorder scale of the other operand, whose
entry in the scale vector stays 1. -/
theorem C3_calibrated_rescale (c : RangeConstants) (params : QuantizeElemwiseAddParam)
    (in_data out_data : List NDArray) (mn mx : ℚ)
    (hmin : params.min_calib_range = some mn) (hmax : params.max_calib_range = some mx)
    (hcalib : MaxAbs mn mx ≠ 0)
    (hA : MaxAbs (in_data.getD kAMin default).scalar (in_data.getD kAMax default).scalar ≠ 0)
    (hB : MaxAbs (in_data.getD kBMin default).scalar (in_data.getD kBMax default).scalar ≠ 0) :
    let l := forwardLocals c params in_data out_data
    let A := in_data.getD kDataA default
    let B := in_data.getD kDataB default
    l.out_data_scale * MaxAbs mn mx = l.output_data_range ∧
    l.out_data_scale = l.output_data_range / MaxAbs mn mx ∧
    l.A_scale = (if A.dtype = TypeFlag.kInt8 then c.kInt8Range else c.kUint8Range) /
      MaxAbs (in_data.getD kAMin default).scalar (in_data.getD kAMax default).scalar ∧
    l.B_scale = (if B.dtype = TypeFlag.kInt8 then c.kInt8Range else c.kUint8Range) /
      MaxAbs (in_data.getD kBMin default).scalar (in_data.getD kBMax default).scalar ∧
    (c.Positive → l.A_scale ≠ 0 ∧ l.B_scale ≠ 0) ∧
    (A.dtype = B.dtype →
      l.scales = [l.out_data_scale / l.A_scale, l.out_data_scale / l.B_scale] ∧
      l.u8_reorder_scale = none) ∧
    (A.dtype ≠ B.dtype → A.dtype = TypeFlag.kInt8 →
      l.scales = [l.out_data_scale / l.A_scale, 1] ∧
      l.u8_reorder_scale = some (l.out_data_scale / l.B_scale)) ∧
    (A.dtype ≠ B.dtype → A.dtype ≠ TypeFlag.kInt8 →
      l.scales = [1, l.out_data_scale / l.B_scale] ∧
      l.u8_reorder_scale = some (l.out_data_scale / l.A_scale)) := by
  obtain ⟨pmin, pmax⟩ := params
  simp only at hmin hmax
  subst hmin hmax
  intro l A B
  obtain ⟨_, hos, hAs, hBs, hrest⟩ := forwardLocals_calibrated c mn mx in_data out_data
  have hAs' : l.A_scale = (if A.dtype = TypeFlag.kInt8 then c.kInt8Range else c.kUint8Range) /
      MaxAbs (in_data.getD kAMin default).scalar (in_data.getD kAMax default).scalar := hAs
  have hBs' : l.B_scale = (if B.dtype = TypeFlag.kInt8 then c.kInt8Range else c.kUint8Range) /
      MaxAbs (in_data.getD kBMin default).scalar (in_data.getD kBMax default).scalar := hBs
  refine ⟨?_, hos, hAs', hBs', fun hc => ⟨?_, ?_⟩, hrest⟩
  · rw [hos]; exact div_mul_cancel₀ _ hcalib
  · have hrA : (if A.dtype = TypeFlag.kInt8 then c.kInt8Range else c.kUint8Range) ≠ 0 := by
      split
      · exact ne_of_gt hc.1
      · exact ne_of_gt hc.2.1
    rw [hAs']; exact div_ne_zero hrA hA
  · have hrB : (if B.dtype = TypeFlag.kInt8 then c.kInt8Range else c.kUint8Range) ≠ 0 := by
      split
      · exact ne_of_gt hc.1
      · exact ne_of_gt hc.2.1
    rw [hBs']; exact div_ne_zero hrB hB

/-- C3 at the spec's scenario (A uint8 in [0, 100], B int8 in [-50, 50], int8
output, calibration [-120, 120]): `out_data_scale` is 127/120, the reorder scale
of A is `out_data_scale / (255/100)` and the sum scale of B is
`out_data_scale / (127/50)`. -/
theorem C3_calibrated_rescale_witness :
    (forwardLocals stdRanges calib120 scenarioIn scenarioOut).out_data_scale = 127 / 120 ∧
    (forwardLocals stdRanges calib120 scenarioIn scenarioOut).scales =
      [1, (forwardLocals stdRanges calib120 scenarioIn scenarioOut).out_data_scale /
          (forwardLocals stdRanges calib120 scenarioIn scenarioOut).B_scale] ∧
    (forwardLocals stdRanges calib120 scenarioIn scenarioOut).u8_reorder_scale =
      some ((forwardLocals stdRanges calib120 scenarioIn scenarioOut).out_data_scale /
        (forwardLocals stdRanges calib120 scenarioIn scenarioOut).A_scale) ∧
    (forwardLocals stdRanges calib120 scenarioIn scenarioOut).A_scale = 255 / 100 ∧
    (forwardLocals stdRanges calib120 scenarioIn scenarioOut).B_scale = 127 / 50 :=
  ⟨by with_unfolding_all decide,
   ((C3_calibrated_rescale stdRanges calib120 scenarioIn scenarioOut (-120) 120 rfl rfl
      (by with_unfolding_all decide) (by with_unfolding_all decide)
      (by with_unfolding_all decide)).2.2.2.2.2.2.2 (by decide) (by decide)).1,
   ((C3_calibrated_rescale stdRanges calib120 scenarioIn scenarioOut (-120) 120 rfl rfl
      (by with_unfolding_all decide) (by with_unfolding_all decide)
      (by with_unfolding_all decide)).2.2.2.2.2.2.2 (by decide) (by decide)).2,
   by with_unfolding_all decide, by with_unfolding_all decide⟩

/-- C4: in every call in dynamic mode whose `dataA_absmax + dataB_absmax` is
non-zero, each operand's rescale factor is
`operand_absmax * output_data_range / ((dataA_absmax + dataB_absmax) * range)`,
`range` being the range constant of that operand's own dtype (`kInt8Range` for
int8, `kUint8Range` for uint8), and the divisor is non-zero when the range
constants are positive: both entries of the sum's scale vector when the dtypes agree; on either cross-type path (A int8 and B
uint8, or A uint8 and B int8) the entry of the int8 operand and the reorder scale
of the uint8 operand, whose entry in the scale vector stays 1. -/
theorem C4_dynamic_rescale (c : RangeConstants) (params : QuantizeElemwiseAddParam)
    (in_data out_data : List NDArray)
    (hcal : params.min_calib_range = none ∨ params.max_calib_range = none)
    (hsum : MaxAbs (in_data.getD kAMin default).scalar (in_data.getD kAMax default).scalar +
      MaxAbs (in_data.getD kBMin default).scalar (in_data.getD kBMax default).scalar ≠ 0) :
    let l := forwardLocals c params in_data out_data
    let A := in_data.getD kDataA default
    let B := in_data.getD kDataB default
    let dataA_absmax :=
      MaxAbs (in_data.getD kAMin default).scalar (in_data.getD kAMax default).scalar
    let dataB_absmax :=
      MaxAbs (in_data.getD kBMin default).scalar (in_data.getD kBMax default).scalar
    let rangeA := if A.dtype = TypeFlag.kInt8 then c.kInt8Range else c.kUint8Range
    let rangeB := if B.dtype = TypeFlag.kInt8 then c.kInt8Range else c.kUint8Range
    let factorA := dataA_absmax * l.output_data_range / ((dataA_absmax + dataB_absmax) * rangeA)
    let factorB := dataB_absmax * l.output_data_range / ((dataA_absmax + dataB_absmax) * rangeB)
    (c.Positive → (dataA_absmax + dataB_absmax) * rangeA ≠ 0 ∧
      (dataA_absmax + dataB_absmax) * rangeB ≠ 0) ∧
    (A.dtype = B.dtype → l.scales = [factorA, factorB] ∧ l.u8_reorder_scale = none) ∧
    (A.dtype = TypeFlag.kInt8 → B.dtype = TypeFlag.kUint8 →
      l.scales = [factorA, 1] ∧ l.u8_reorder_scale = some factorB) ∧
    (A.dtype = TypeFlag.kUint8 → B.dtype = TypeFlag.kInt8 →
      l.scales = [1, factorB] ∧ l.u8_reorder_scale = some factorA) := by
  intro l A B dataA_absmax dataB_absmax rangeA rangeB factorA factorB
  obtain ⟨hAm, hBm, hAr, hsame, hA8, hB8⟩ :=
    forwardLocals_dynamic c params in_data out_data (calibrated_eq_false params hcal)
  refine ⟨fun hc => ?_, fun hd => ?_, fun h8 hu => ?_, fun hu h8 => ?_⟩
  · have hrA : rangeA ≠ 0 := by
      show (if A.dtype = TypeFlag.kInt8 then c.kInt8Range else c.kUint8Range) ≠ 0
      split
      · exact ne_of_gt hc.1
      · exact ne_of_gt hc.2.1
    have hrB : rangeB ≠ 0 := by
      show (if B.dtype = TypeFlag.kInt8 then c.kInt8Range else c.kUint8Range) ≠ 0
      split
      · exact ne_of_gt hc.1
      · exact ne_of_gt hc.2.1
    exact ⟨mul_ne_zero hsum hrA, mul_ne_zero hsum hrB⟩
  · have h := hsame hd
    rw [hAm, hBm, hAr] at h
    have hr : rangeB = rangeA := by
      show (if B.dtype = TypeFlag.kInt8 then c.kInt8Range else c.kUint8Range) =
        (if A.dtype = TypeFlag.kInt8 then c.kInt8Range else c.kUint8Range)
      rw [hd]
    show l.scales = [_ / (_ * rangeA), _ / (_ * rangeB)] ∧ _
    rw [hr]
    exact h
  · have hne : A.dtype ≠ B.dtype := by rw [h8, hu]; decide
    have h := hA8 hne h8
    rw [hAm, hBm, hAr] at h
    have hr : rangeB = c.kUint8Range := by
      show (if B.dtype = TypeFlag.kInt8 then c.kInt8Range else c.kUint8Range) = _
      rw [hu]; rfl
    show l.scales = [_ / (_ * rangeA), 1] ∧ l.u8_reorder_scale = some (_ / (_ * rangeB))
    rw [hr]
    exact h
  · have hne : A.dtype ≠ B.dtype := by rw [h8, hu]; decide
    have hn8 : A.dtype ≠ TypeFlag.kInt8 := by rw [hu]; decide
    have h := hB8 hne hn8
    rw [hAm, hBm, hAr] at h
    have hr : rangeB = c.kInt8Range := by
      show (if B.dtype = TypeFlag.kInt8 then c.kInt8Range else c.kUint8Range) = _
      rw [h8]; rfl
    show l.scales = [1, _ / (_ * rangeB)] ∧ l.u8_reorder_scale = some (_ / (_ * rangeA))
    rw [hr]
    exact h

set_option maxRecDepth 8000 in
/-- C4 at the spec's scenario (A uint8 in [0, 100], B int8 in [-50, 50], no
calibration, int8 output so that the output range constant is 127): the reorder
scale of A is `100 * 127 / (150 * 255)` and the sum scale of B is
`50 * 127 / (150 * 127)`. -/
theorem C4_dynamic_rescale_witness :
    (forwardLocals stdRanges noCalib scenarioIn scenarioOut).scales =
      [1, 50 * 127 / (150 * 127)] ∧
    (forwardLocals stdRanges noCalib scenarioIn scenarioOut).u8_reorder_scale =
      some (100 * 127 / (150 * 255)) := by
  have h := (C4_dynamic_rescale stdRanges noCalib scenarioIn scenarioOut (Or.inl rfl)
    (by with_unfolding_all decide)).2.2.2 (by decide) (by decide)
  refine ⟨h.1.trans ?_, h.2.trans ?_⟩ <;> with_unfolding_all decide

set_option maxRecDepth 100000 in
/-- C5, evaluated at a failing input: on a fresh thread a node with calibration
[-120, 120] runs the spec's scenario, then a node with calibration [-60, 60] runs
on the same inputs with fresh outputs. Both calls build the same key (so would
calls on tensors with other contents), the scale vectors they compute differ
([1, 5/12] against [1, 5/6]), no second plan is constructed, and the second
call's sum runs with the scales of the first. -/
theorem C5_stale_plan_on_equal_keys :
    planKey scenarioIn2 scenarioOut = planKey scenarioIn scenarioOut ∧
    (forwardLocals stdRanges calib120 scenarioIn scenarioOut).scales = [1, 5 / 12] ∧
    (forwardLocals stdRanges calib60 scenarioIn scenarioOut).scales = [1, 5 / 6] ∧
    (DNNLQuantizedElemwiseAddForward stdRanges calib120 scenarioIn reqWrite scenarioOut
      ThreadState.init).thread.constructed = 1 ∧
    (DNNLQuantizedElemwiseAddForward stdRanges calib60 scenarioIn reqWrite scenarioOut
        (DNNLQuantizedElemwiseAddForward stdRanges calib120 scenarioIn reqWrite scenarioOut
          ThreadState.init).thread).thread.constructed = 1 ∧
    (DNNLQuantizedElemwiseAddForward stdRanges calib60 scenarioIn reqWrite scenarioOut
        (DNNLQuantizedElemwiseAddForward stdRanges calib120 scenarioIn reqWrite scenarioOut
          ThreadState.init).thread).thread.sumScales = [[1, 5 / 12], [1, 5 / 12]] := by
  refine ⟨?_, ?_, ?_, ?_, ?_, ?_⟩ <;> with_unfolding_all decide

/-- C6: on one thread, `GetQuantizedElemwiseAddForward` constructs a plan only when
the key of the call is not in the thread's map. From a fresh thread, the number
of plans constructed by a sequence of calls is the number of distinct keys built;
a call whose key equals the key of an earlier call returns the plan the earlier
call returned; a hit returns the stored plan and leaves the thread unchanged
(nothing is constructed); a miss constructs exactly one plan, from the arguments
of the call, and stores it under the key; and the key does not depend on tensor
contents, only on dtypes, shapes and the six range scalars. -/
theorem C6_plan_constructed_once_per_key (calls : List GetCall) :
    (runCalls ThreadState.init calls).2.constructed = (calls.map GetCall.key).dedup.length ∧
    (∀ (i j : Nat) (a b : GetCall), i < j → calls[i]? = some a → calls[j]? = some b →
      a.key = b.key →
      (runCalls ThreadState.init calls).1[j]? = (runCalls ThreadState.init calls).1[i]? ∧
      (runCalls ThreadState.init calls).1[i]? ≠ none) ∧
    (∀ (th : ThreadState) (a : GetCall) (fwd : DNNLQuantizedElemwiseAddFwd),
      findFwd th.fwds a.key = some fwd → a.run th = (fwd, th)) ∧
    (∀ (th : ThreadState) (a : GetCall), findFwd th.fwds a.key = none →
      (a.run th).1 = DNNLQuantizedElemwiseAddFwd.new a.output_desc a.scales a.data_md ∧
      (a.run th).2.constructed = th.constructed + 1 ∧
      (a.run th).2.fwds = (a.key, (a.run th).1) :: th.fwds) ∧
    (∀ a b : GetCall, a.in_data.map NDArray.sig = b.in_data.map NDArray.sig →
      (a.in_data.getD kAMin default).scalar = (b.in_data.getD kAMin default).scalar →
      (a.in_data.getD kAMax default).scalar = (b.in_data.getD kAMax default).scalar →
      (a.in_data.getD kBMin default).scalar = (b.in_data.getD kBMin default).scalar →
      (a.in_data.getD kBMax default).scalar = (b.in_data.getD kBMax default).scalar →
      a.out_data.map NDArray.sig = b.out_data.map NDArray.sig →
      (a.out_data.getD kMin default).scalar = (b.out_data.getD kMin default).scalar →
      (a.out_data.getD kMax default).scalar = (b.out_data.getD kMax default).scalar →
      a.key = b.key) := by
  refine ⟨runCalls_constructed calls, ?_, ?_, ?_, ?_⟩
  · intro i j a b hij hi hj hk
    exact runCalls_same_key calls ThreadState.init i j a b hij hi hj hk
  · intro th a fwd h
    exact run_hit a th fwd h
  · intro th a h
    rw [run_miss a th h]
    exact ⟨rfl, rfl, rfl⟩
  · intro a b h1 h2 h3 h4 h5 h6 h7 h8
    exact planKey_congr a.in_data a.out_data b.in_data b.out_data h1 h2 h3 h4 h5 h6 h7 h8

set_option maxRecDepth 100000 in
/-- C6 on three calls: two keys are built, two plans are constructed, and the second
call gets the plan of the first although its tensors hold other values. -/
theorem C6_plan_constructed_once_per_key_witness :
    (runCalls ThreadState.init threeCalls).2.constructed = 2 ∧
    (runCalls ThreadState.init threeCalls).1[1]? = (runCalls ThreadState.init threeCalls).1[0]? :=
  ⟨(C6_plan_constructed_once_per_key threeCalls).1.trans (by with_unfolding_all decide),
   ((C6_plan_constructed_once_per_key threeCalls).2.1 0 1 _ _ (by decide) rfl rfl
      (by with_unfolding_all decide)).1⟩

set_option maxRecDepth 100000 in
/-- C7, evaluated at a failing input: after a call of another node (calibration
[-120, 120], same tensors and ranges), a node with calibration [-60, 60] is called
twice in succession on identical inputs. Both calls succeed, write the range -60
and 60 and compute the scales [1, 5/6]; but the first finds the key with the old
output scalars in the map and runs the sum with the cached scales [1, 5/12],
while the second, whose key holds the scalars the first call wrote, constructs a
plan and runs the sum with [1, 5/6]. -/
theorem C7_repeat_call_changes_scales :
    firstCall.error = none ∧ secondCall.error = none ∧
    firstCall.out_data.map NDArray.scalar = [0, -60, 60] ∧
    secondCall.out_data.map NDArray.scalar = [0, -60, 60] ∧
    (forwardLocals stdRanges calib60 scenarioIn scenarioOut).scales = [1, 5 / 6] ∧
    (forwardLocals stdRanges calib60 scenarioIn firstCall.out_data).scales = [1, 5 / 6] ∧
    priorThread.sumScales = [[1, 5 / 12]] ∧
    firstCall.thread.sumScales = [[1, 5 / 12], [1, 5 / 12]] ∧
    secondCall.thread.sumScales = [[1, 5 / 12], [1, 5 / 12], [1, 5 / 6]] := by
  refine ⟨?_, ?_, ?_, ?_, ?_, ?_, ?_, ?_, ?_⟩ <;> with_unfolding_all decide

/-- C8: the kernel fails exactly when the number of inputs is not 6 or the number of
outputs is not 3; a failing call leaves the output arrays and the thread (plan
cache, construction counter, stream and submitted primitives) as they were; and
`ElemwiseAddStorageType` fails exactly when its attribute lists are not of sizes
6 and 3. The collaborators outside the file are total in the embedding. -/
theorem C8_arity_checks {Attrs Mode : Type} (c : RangeConstants)
    (params : QuantizeElemwiseAddParam) (in_data : List NDArray) (req : List OpReqType)
    (out_data : List NDArray) (th : ThreadState)
    (DNNLStorageType : Attrs → Int → Bool → Mode → List Int → List Int → Bool)
    (attrs : Attrs) (dev_mask : Int) (dispatch_mode : Mode) (in_attrs out_attrs : List Int) :
    ((DNNLQuantizedElemwiseAddForward c params in_data req out_data th).error ≠ none ↔
      (in_data.length ≠ 6 ∨ out_data.length ≠ 3)) ∧
    ((DNNLQuantizedElemwiseAddForward c params in_data req out_data th).error ≠ none →
      (DNNLQuantizedElemwiseAddForward c params in_data req out_data th).out_data = out_data ∧
      (DNNLQuantizedElemwiseAddForward c params in_data req out_data th).thread = th) ∧
    ((∃ msg, ElemwiseAddStorageType DNNLStorageType attrs dev_mask dispatch_mode in_attrs
        out_attrs = Except.error msg) ↔ (in_attrs.length ≠ 6 ∨ out_attrs.length ≠ 3)) := by
  refine ⟨forward_error_iff c params in_data req out_data th, ?_, ?_⟩
  · intro h
    have h' := (forward_error_iff c params in_data req out_data th).mp h
    unfold DNNLQuantizedElemwiseAddForward
    by_cases hin : in_data.length = 6
    · have hout : out_data.length ≠ 3 := by
        rcases h' with h1 | h1
        · exact absurd hin h1
        · exact h1
      rw [if_neg (by simp [hin]), if_pos hout]
      exact ⟨rfl, rfl⟩
    · rw [if_pos hin]
      exact ⟨rfl, rfl⟩
  · unfold ElemwiseAddStorageType
    by_cases hin : in_attrs.length = 6
    · by_cases hout : out_attrs.length = 3
      · rw [if_neg (by simp [hin]), if_neg (by simp [hout])]
        simp [hin, hout]
      · rw [if_neg (by simp [hin]), if_pos hout]
        simp [hout]
    · rw [if_pos hin]
      simp [hin]

/-- C8 at a call with five inputs: the kernel fails with the message of the first
check and changes nothing. -/
theorem C8_arity_checks_witness :
    (DNNLQuantizedElemwiseAddForward stdRanges noCalib (scenarioIn.take 5) reqWrite scenarioOut
        ThreadState.init).error = some "should be A, B, A_min, A_max, B_min, B_max" ∧
    (DNNLQuantizedElemwiseAddForward stdRanges noCalib (scenarioIn.take 5) reqWrite scenarioOut
        ThreadState.init).out_data = scenarioOut ∧
    (DNNLQuantizedElemwiseAddForward stdRanges noCalib (scenarioIn.take 5) reqWrite scenarioOut
        ThreadState.init).thread = ThreadState.init :=
  ⟨by with_unfolding_all decide,
   (C8_arity_checks stdRanges noCalib (scenarioIn.take 5) reqWrite scenarioOut ThreadState.init
      (fun (_ : Unit) _ _ (_ : Unit) _ _ => true) () 0 () [] []).2.1
      (by with_unfolding_all decide)⟩

set_option maxRecDepth 100000 in
/-- C9 refuted as stated: with both operand ranges [0, 0] and no calibration, both
absolute maxima are 0, yet the kernel returns normally, constructs a plan, submits
the sum and overwrites the range scalars (7 and 9 before the call) with 0 and 0;
all four divisors of its scale derivation are 0. -/
theorem C9_degenerate_range_not_rejected :
    MaxAbs (zeroIn.getD kAMin default).scalar (zeroIn.getD kAMax default).scalar = 0 ∧
    MaxAbs (zeroIn.getD kBMin default).scalar (zeroIn.getD kBMax default).scalar = 0 ∧
    (DNNLQuantizedElemwiseAddForward stdRanges noCalib zeroIn reqWrite staleOut
      ThreadState.init).error = none ∧
    staleOut.map NDArray.scalar = [0, 7, 9] ∧
    (DNNLQuantizedElemwiseAddForward stdRanges noCalib zeroIn reqWrite staleOut
      ThreadState.init).out_data.map NDArray.scalar = [0, 0, 0] ∧
    (DNNLQuantizedElemwiseAddForward stdRanges noCalib zeroIn reqWrite staleOut
      ThreadState.init).thread.constructed = 1 ∧
    (DNNLQuantizedElemwiseAddForward stdRanges noCalib zeroIn reqWrite staleOut
      ThreadState.init).thread.sumScales.length = 1 ∧
    forwardDivisors stdRanges noCalib zeroIn staleOut = [0, 0, 0, 0] := by
  refine ⟨?_, ?_, ?_, ?_, ?_, ?_, ?_, ?_⟩ <;> with_unfolding_all decide

/-- C9 as amended: in every call that passes the arity checks, in dynamic mode, with
`dataA_absmax = 0` and `dataB_absmax = 0`, the kernel does not fail; it writes
`result_max = 0` and `result_min = 0`; and the four divisions of its scale
derivation (the two `GetScale` calls and the two scale formulas) all have the
divisor 0. -/
theorem C9_degenerate_range_amended (c : RangeConstants) (params : QuantizeElemwiseAddParam)
    (in_data : List NDArray) (req : List OpReqType) (out_data : List NDArray) (th : ThreadState)
    (hin : in_data.length = 6) (hout : out_data.length = 3)
    (hcal : params.min_calib_range = none ∨ params.max_calib_range = none)
    (hA : MaxAbs (in_data.getD kAMin default).scalar (in_data.getD kAMax default).scalar = 0)
    (hB : MaxAbs (in_data.getD kBMin default).scalar (in_data.getD kBMax default).scalar = 0) :
    (DNNLQuantizedElemwiseAddForward c params in_data req out_data th).error = none ∧
    ((DNNLQuantizedElemwiseAddForward c params in_data req out_data th).out_data.getD kMax
        default).scalar = 0 ∧
    ((DNNLQuantizedElemwiseAddForward c params in_data req out_data th).out_data.getD kMin
        default).scalar = 0 ∧
    forwardDivisors c params in_data out_data = [0, 0, 0, 0] := by
  obtain ⟨hmin, hmax⟩ := forward_range_scalars c params in_data req out_data th hin hout
  obtain ⟨hmx, hmn⟩ := forwardLocals_dynamic_range c params in_data out_data hcal
  obtain ⟨r1, r2, hdiv⟩ :=
    forwardDivisors_dynamic c params in_data out_data (calibrated_eq_false params hcal)
  refine ⟨forward_error_none c params in_data req out_data th hin hout, ?_, ?_, ?_⟩
  · rw [hmax, hmx, hA, hB, add_zero]
  · rw [hmin, hmn, hA, hB, add_zero, neg_zero]
  · rw [hdiv, hA, hB, add_zero, zero_mul, zero_mul]

/-- C9 as amended, at two int8 operands with range [0, 0]: the call succeeds and the
range scalars, 7 and 9 before, are 0 and 0 after. -/
theorem C9_degenerate_range_amended_witness :
    (DNNLQuantizedElemwiseAddForward stdRanges noCalib zeroIn reqWrite staleOut
      ThreadState.init).error = none ∧
    ((DNNLQuantizedElemwiseAddForward stdRanges noCalib zeroIn reqWrite staleOut
      ThreadState.init).out_data.getD kMax default).scalar = 0 ∧
    ((DNNLQuantizedElemwiseAddForward stdRanges noCalib zeroIn reqWrite staleOut
      ThreadState.init).out_data.getD kMin default).scalar = 0 ∧
    forwardDivisors stdRanges noCalib zeroIn staleOut = [0, 0, 0, 0] :=
  C9_degenerate_range_amended stdRanges noCalib zeroIn reqWrite staleOut ThreadState.init
    (by decide) (by decide) (Or.inl rfl) (by with_unfolding_all decide)
    (by with_unfolding_all decide)

/-- C10: in every call that passes the arity checks, the fused sum is submitted on
the handles `dataA_mem` and `dataB_mem` as the scale stage leaves them, after the
reorder if there is one, and a plan constructed by the call is built from their
two descriptors. With A int8 and B uint8, B's handle is replaced by a scratch
buffer whose descriptor is A's, A's handle is unchanged, both handles have the
s8 element type, and the reorder goes from B's memory to the scratch buffer; with
A uint8 and B int8 the same holds with the roles exchanged; with equal dtypes no
reorder is registered and both handles are those of the tensors. -/
theorem C10_cross_type_handles (c : RangeConstants) (params : QuantizeElemwiseAddParam)
    (in_data : List NDArray) (req : List OpReqType) (out_data : List NDArray) (th : ThreadState)
    (hin : in_data.length = 6) (hout : out_data.length = 3) :
    let l := forwardLocals c params in_data out_data
    let A := in_data.getD kDataA default
    let B := in_data.getD kDataB default
    let r := GetQuantizedElemwiseAddForward
      { dims := A.shape, dtype := l.output_data_type, format := dnnl.format_tag.any }
      l.scales in_data out_data [l.dataA_mem.desc, l.dataB_mem.desc]
      { th with stream := th.stream ++ l.reorder.toList }
    let dst : dnnl.memory :=
      { desc := r.1.fwd_pd.dst_desc, handle := dnnl.storage.tensor (out_data.getD kOut default) }
    (DNNLQuantizedElemwiseAddForward c params in_data req out_data th).thread.submitted =
      th.submitted ++ (th.stream ++ l.reorder.toList ++
        [PrimArgs.sum r.1.GetFwd l.dataA_mem l.dataB_mem dst,
         PrimArgs.commit (out_data.getD kOut default) (req.headD OpReqType.kNullOp) dst]) ∧
    (findFwd th.fwds (planKey in_data out_data) = none →
      r.1.GetFwd.src_descs = [l.dataA_mem.desc, l.dataB_mem.desc]) ∧
    (A.dtype = TypeFlag.kInt8 → B.dtype = TypeFlag.kUint8 →
      l.dataA_mem = A.GetDNNLData ∧
      l.dataB_mem = { desc := A.GetDNNLData.desc, handle := dnnl.storage.scratch } ∧
      l.dataA_mem.desc.dtype = dnnl.data_type.s8 ∧ l.dataB_mem.desc.dtype = dnnl.data_type.s8 ∧
      l.reorder = some (PrimArgs.reorder
        { src_desc := B.GetDNNLData.desc, dst_desc := A.GetDNNLData.desc,
          output_scales := l.u8_reorder_scale.toList }
        B.GetDNNLData l.dataB_mem)) ∧
    (A.dtype = TypeFlag.kUint8 → B.dtype = TypeFlag.kInt8 →
      l.dataB_mem = B.GetDNNLData ∧
      l.dataA_mem = { desc := B.GetDNNLData.desc, handle := dnnl.storage.scratch } ∧
      l.dataA_mem.desc.dtype = dnnl.data_type.s8 ∧ l.dataB_mem.desc.dtype = dnnl.data_type.s8 ∧
      l.reorder = some (PrimArgs.reorder
        { src_desc := A.GetDNNLData.desc, dst_desc := B.GetDNNLData.desc,
          output_scales := l.u8_reorder_scale.toList }
        A.GetDNNLData l.dataA_mem)) ∧
    (A.dtype = B.dtype →
      l.reorder = none ∧ l.dataA_mem = A.GetDNNLData ∧ l.dataB_mem = B.GetDNNLData) := by
  intro l A B r dst
  obtain ⟨hsame, hA8, hB8⟩ := forwardLocals_handles c params in_data out_data
  refine ⟨?_, ?_, ?_, ?_, ?_⟩
  · have h := forward_thread c params in_data req out_data th hin hout
    exact congrArg ThreadState.submitted h
  · intro hmiss
    have hr : r = GetQuantizedElemwiseAddForward
        { dims := A.shape, dtype := l.output_data_type, format := dnnl.format_tag.any }
        l.scales in_data out_data [l.dataA_mem.desc, l.dataB_mem.desc]
        { th with stream := th.stream ++ l.reorder.toList } := rfl
    clear_value r
    unfold GetQuantizedElemwiseAddForward at hr
    simp only [hmiss] at hr
    subst hr
    rfl
  · intro h8 hu
    have hne : A.dtype ≠ B.dtype := by rw [h8, hu]; decide
    obtain ⟨_, hro, hAm, hBm⟩ := hA8 hne h8
    have hAd : A.GetDNNLData.desc.dtype = dnnl.data_type.s8 := by
      show get_dnnl_type A.dtype = dnnl.data_type.s8
      rw [h8]; rfl
    refine ⟨hAm, hBm, ?_, ?_, ?_⟩
    · rw [hAm]; exact hAd
    · rw [hBm]; exact hAd
    · rw [hro, hBm]
  · intro hu h8
    have hne : A.dtype ≠ B.dtype := by rw [h8, hu]; decide
    have hn8 : A.dtype ≠ TypeFlag.kInt8 := by rw [hu]; decide
    obtain ⟨_, hro, hAm, hBm⟩ := hB8 hne hn8
    have hBd : B.GetDNNLData.desc.dtype = dnnl.data_type.s8 := by
      show get_dnnl_type B.dtype = dnnl.data_type.s8
      rw [h8]; rfl
    refine ⟨hBm, hAm, ?_, ?_, ?_⟩
    · rw [hAm]; exact hBd
    · rw [hBm]; exact hBd
    · rw [hro, hAm]
  · intro hd
    obtain ⟨hro, _, hAm, hBm⟩ := hsame hd
    exact ⟨hro, hAm, hBm⟩

set_option maxRecDepth 100000 in
/-- C10 at the spec's scenario (A uint8, B int8, no calibration): A's handle becomes
a scratch buffer with B's descriptor, both handles are s8, and the call submits
the reorder and then the sum on these handles. -/
theorem C10_cross_type_handles_witness :
    (forwardLocals stdRanges noCalib scenarioIn scenarioOut).dataA_mem =
      { desc := s8Plain, handle := dnnl.storage.scratch } ∧
    (forwardLocals stdRanges noCalib scenarioIn scenarioOut).dataB_mem =
      (quantArr TypeFlag.kInt8 [-1, 2, -3, 4]).GetDNNLData ∧
    (forwardLocals stdRanges noCalib scenarioIn scenarioOut).dataB_mem.desc.dtype =
      dnnl.data_type.s8 := by
  have h := (C10_cross_type_handles stdRanges noCalib scenarioIn reqWrite scenarioOut
    ThreadState.init (by decide) (by decide)).2.2.2.1 (by decide) (by decide)
  exact ⟨h.2.1.trans (by with_unfolding_all decide), h.1.trans (by with_unfolding_all decide),
    h.2.2.2.1⟩

/-- C11: the output range constant used by the scale derivation and the element
type of the output descriptor are chosen by the dtype of the result tensor alone:
`kInt8Range` and s8 for int8, `kUint8Range` and u8 for uint8, `kInt32Range` and
s32 for every other dtype; calls that agree on that dtype agree on both, whatever
their operands and calibration; and a plan constructed by the call has an output
descriptor of that element type, with the shape of operand A. -/
theorem C11_output_domain (c : RangeConstants) (params : QuantizeElemwiseAddParam)
    (in_data out_data : List NDArray) :
    let l := forwardLocals c params in_data out_data
    let t := (out_data.getD kOut default).dtype
    (t = TypeFlag.kInt8 →
      l.output_data_range = c.kInt8Range ∧ l.output_data_type = dnnl.data_type.s8) ∧
    (t = TypeFlag.kUint8 →
      l.output_data_range = c.kUint8Range ∧ l.output_data_type = dnnl.data_type.u8) ∧
    (t ≠ TypeFlag.kInt8 → t ≠ TypeFlag.kUint8 →
      l.output_data_range = c.kInt32Range ∧ l.output_data_type = dnnl.data_type.s32) ∧
    (∀ (params2 : QuantizeElemwiseAddParam) (in_data2 out_data2 : List NDArray),
      (out_data2.getD kOut default).dtype = t →
      (forwardLocals c params2 in_data2 out_data2).output_data_range = l.output_data_range ∧
      (forwardLocals c params2 in_data2 out_data2).output_data_type = l.output_data_type) ∧
    (∀ (req : List OpReqType) (th : ThreadState), in_data.length = 6 → out_data.length = 3 →
      findFwd th.fwds (planKey in_data out_data) = none →
      ∃ (fwd : DNNLQuantizedElemwiseAddFwd) (srcA srcB dst : dnnl.memory),
        PrimArgs.sum fwd.GetFwd srcA srcB dst ∈
          (DNNLQuantizedElemwiseAddForward c params in_data req out_data th).thread.submitted ∧
        fwd.GetFwd.dst_desc = dnnl.memory_desc.mk (in_data.getD kDataA default).shape
          l.output_data_type dnnl.format_tag.any ∧
        dst.desc = fwd.GetFwd.dst_desc) := by
  intro l t
  obtain ⟨hr, ht⟩ := forwardLocals_output_domain c params in_data out_data
  refine ⟨fun h => ?_, fun h => ?_, fun h8 hu => ?_, fun p2 i2 o2 h => ?_,
    fun req th hin hout hmiss => ?_⟩
  · simp only [l, hr, ht]
    have h' : (out_data.getD kOut default).dtype = TypeFlag.kInt8 := h
    rw [if_pos h', if_pos h']
    exact ⟨rfl, rfl⟩
  · have h' : (out_data.getD kOut default).dtype = TypeFlag.kUint8 := h
    have hn : (out_data.getD kOut default).dtype ≠ TypeFlag.kInt8 := by rw [h']; decide
    simp only [l, hr, ht]
    rw [if_neg hn, if_pos h', if_neg hn, if_pos h']
    exact ⟨rfl, rfl⟩
  · have h8' : (out_data.getD kOut default).dtype ≠ TypeFlag.kInt8 := h8
    have hu' : (out_data.getD kOut default).dtype ≠ TypeFlag.kUint8 := hu
    simp only [l, hr, ht]
    rw [if_neg h8', if_neg hu', if_neg h8', if_neg hu']
    exact ⟨rfl, rfl⟩
  · obtain ⟨hr2, ht2⟩ := forwardLocals_output_domain c p2 i2 o2
    have h' : (o2.getD kOut default).dtype = (out_data.getD kOut default).dtype := h
    simp only [l, hr, ht, hr2, ht2, h']
    exact ⟨trivial, trivial⟩
  · have hth := forward_thread c params in_data req out_data th hin hout
    have hkey := get_forward_miss
      { dims := (in_data.getD kDataA default).shape, dtype := l.output_data_type,
        format := dnnl.format_tag.any }
      l.scales in_data out_data [l.dataA_mem.desc, l.dataB_mem.desc]
      { th with stream := th.stream ++ l.reorder.toList } hmiss
    refine ⟨(GetQuantizedElemwiseAddForward
        { dims := (in_data.getD kDataA default).shape, dtype := l.output_data_type,
          format := dnnl.format_tag.any }
        l.scales in_data out_data [l.dataA_mem.desc, l.dataB_mem.desc]
        { th with stream := th.stream ++ l.reorder.toList }).1, l.dataA_mem, l.dataB_mem,
      { desc := (GetQuantizedElemwiseAddForward
          { dims := (in_data.getD kDataA default).shape, dtype := l.output_data_type,
            format := dnnl.format_tag.any }
          l.scales in_data out_data [l.dataA_mem.desc, l.dataB_mem.desc]
          { th with stream := th.stream ++ l.reorder.toList }).1.fwd_pd.dst_desc,
        handle := dnnl.storage.tensor (out_data.getD kOut default) }, ?_, ?_, ?_⟩
    · rw [congrArg ThreadState.submitted hth]
      simp only [List.mem_append, List.mem_cons, List.mem_singleton]
      exact Or.inr (Or.inr (Or.inl trivial))
    · rw [hkey]; rfl
    · rw [hkey]; rfl

/-- C11 at an int32 result tensor, on a fresh thread: the output range constant is
`kInt32Range`, the output element type is s32, and the call submits a sum whose
plan has an s32 output descriptor. -/
theorem C11_output_domain_witness :
    (forwardLocals stdRanges noCalib scenarioIn int32Out).output_data_range = 2147483647 ∧
    (forwardLocals stdRanges noCalib scenarioIn int32Out).output_data_type = dnnl.data_type.s32 ∧
    ∃ (fwd : DNNLQuantizedElemwiseAddFwd) (srcA srcB dst : dnnl.memory),
      PrimArgs.sum fwd.GetFwd srcA srcB dst ∈
        (DNNLQuantizedElemwiseAddForward stdRanges noCalib scenarioIn reqWrite int32Out
          ThreadState.init).thread.submitted ∧
      fwd.GetFwd.dst_desc = dnnl.memory_desc.mk (scenarioIn.getD kDataA default).shape
        (forwardLocals stdRanges noCalib scenarioIn int32Out).output_data_type
        dnnl.format_tag.any ∧
      dst.desc = fwd.GetFwd.dst_desc :=
  ⟨((C11_output_domain stdRanges noCalib scenarioIn int32Out).2.2.1 (by decide) (by decide)).1,
   ((C11_output_domain stdRanges noCalib scenarioIn int32Out).2.2.1 (by decide) (by decide)).2,
   (C11_output_domain stdRanges noCalib scenarioIn int32Out).2.2.2.2 reqWrite ThreadState.init
     (by decide) (by decide) (by with_unfolding_all decide)⟩

/-- C12, evaluated at a failing input: the spec's scenario (A uint8 in [0, 100], B
int8 in [-50, 50]) in dynamic mode with an int32 result tensor, the output type
the kernel takes by default. The reorder scale of A is
`100 * (2^31 - 1) / (150 * 255)`, so already the uint8 value 1 is sent above
`kInt8Range`; the call submits the reorder with this scale from A's u8 memory
into a scratch buffer of element type s8, replaces A's handle by that buffer and
gives it the sum scale 1. On the same-dtype path, with the same ranges and
result tensor, no reorder is registered and both factors are applied in the sum. -/
theorem C12_reorder_overflows_int8_scratch :
    (forwardLocals stdRanges noCalib scenarioIn int32Out).u8_reorder_scale =
      some (100 * 2147483647 / (150 * 255)) ∧
    stdRanges.kInt8Range < 1 * (100 * 2147483647 / (150 * 255)) ∧
    (forwardLocals stdRanges noCalib scenarioIn int32Out).dataA_mem =
      { desc := s8Plain, handle := dnnl.storage.scratch } ∧
    (∃ y : ℚ, (forwardLocals stdRanges noCalib scenarioIn int32Out).scales = [1, y]) ∧
    PrimArgs.reorder
        { src_desc := { dims := [4], dtype := dnnl.data_type.u8, format := dnnl.format_tag.plain },
          dst_desc := s8Plain, output_scales := [100 * 2147483647 / (150 * 255)] }
        (quantArr TypeFlag.kUint8 [10, 20, 30, 40]).GetDNNLData
        { desc := s8Plain, handle := dnnl.storage.scratch } ∈
      (DNNLQuantizedElemwiseAddForward stdRanges noCalib scenarioIn reqWrite int32Out
        ThreadState.init).thread.submitted ∧
    (forwardLocals stdRanges noCalib otherShapeIn int32Out).reorder = none ∧
    (forwardLocals stdRanges noCalib otherShapeIn int32Out).u8_reorder_scale = none := by
  have hne : (scenarioIn.getD kDataA default).dtype ≠ (scenarioIn.getD kDataB default).dtype := by
    decide
  have hn8 : (scenarioIn.getD kDataA default).dtype ≠ TypeFlag.kInt8 := by decide
  obtain ⟨_, hro, hAm, _⟩ :=
    (forwardLocals_handles stdRanges noCalib scenarioIn int32Out).2.2 hne hn8
  rw [scenario_int32_reorder_scale] at hro
  have hsc := ((forwardLocals_dynamic stdRanges noCalib scenarioIn int32Out rfl).2.2.2.2.2
    hne hn8).1
  obtain ⟨hsro, hsu, _⟩ :=
    (forwardLocals_handles stdRanges noCalib otherShapeIn int32Out).1 (by decide)
  refine ⟨scenario_int32_reorder_scale, ?_, hAm, ⟨_, hsc⟩, ?_, hsro, hsu⟩
  · norm_num [stdRanges]
  · have hth := forward_thread stdRanges noCalib scenarioIn reqWrite int32Out ThreadState.init
      (by decide) (by decide)
    rw [congrArg ThreadState.submitted hth, hro]
    simp only [Option.toList, List.mem_append, List.mem_cons, List.mem_singleton]
    exact Or.inr (Or.inl (Or.inr (Or.inl rfl)))

/-- C13: in dynamic mode, for an int8 operand S and a uint8 operand U with their
range scalars and any outputs, the call with (A, B) = (S, U) and the call with
(A, B) = (U, S) derive the same reorder scale for U, the same sum scale for S
(first entry of the scale vector in the one call, second entry in the other), the
sum scale 1 for U, and the same output range. -/
theorem C13_dynamic_swap_symmetry (c : RangeConstants) (params : QuantizeElemwiseAddParam)
    (S U Smin Smax Umin Umax : NDArray) (out_data : List NDArray)
    (hS : S.dtype = TypeFlag.kInt8) (hU : U.dtype = TypeFlag.kUint8)
    (hcal : params.min_calib_range = none ∨ params.max_calib_range = none) :
    let l1 := forwardLocals c params [S, U, Smin, Smax, Umin, Umax] out_data
    let l2 := forwardLocals c params [U, S, Umin, Umax, Smin, Smax] out_data
    (∃ r : ℚ, l1.u8_reorder_scale = some r ∧ l2.u8_reorder_scale = some r) ∧
    (∃ x : ℚ, l1.scales = [x, 1] ∧ l2.scales = [1, x]) ∧
    l1.output_min = l2.output_min ∧ l1.output_max = l2.output_max := by
  intro l1 l2
  have hdyn := calibrated_eq_false params hcal
  obtain ⟨hA1, hB1, hr1, _, h18, _⟩ :=
    forwardLocals_dynamic c params [S, U, Smin, Smax, Umin, Umax] out_data hdyn
  obtain ⟨hA2, hB2, hr2, _, _, h2u⟩ :=
    forwardLocals_dynamic c params [U, S, Umin, Umax, Smin, Smax] out_data hdyn
  obtain ⟨hmx1, hmn1⟩ :=
    forwardLocals_dynamic_range c params [S, U, Smin, Smax, Umin, Umax] out_data hcal
  obtain ⟨hmx2, hmn2⟩ :=
    forwardLocals_dynamic_range c params [U, S, Umin, Umax, Smin, Smax] out_data hcal
  have hR1 := (forwardLocals_output_domain c params [S, U, Smin, Smax, Umin, Umax] out_data).1
  have hR2 := (forwardLocals_output_domain c params [U, S, Umin, Umax, Smin, Smax] out_data).1
  have hne1 : S.dtype ≠ U.dtype := by rw [hS, hU]; decide
  have hne2 : U.dtype ≠ S.dtype := by rw [hS, hU]; decide
  have hn8 : U.dtype ≠ TypeFlag.kInt8 := by rw [hU]; decide
  obtain ⟨hs1, hu1⟩ := h18 hne1 hS
  obtain ⟨hs2, hu2⟩ := h2u hne2 hn8
  simp only [List.getD_cons_zero, List.getD_cons_succ] at hA1 hB1 hr1 hA2 hB2 hr2
  simp only [List.getD_cons_zero, List.getD_cons_succ] at hmx1 hmn1 hmx2 hmn2
  rw [if_pos hS] at hr1
  rw [if_neg hn8] at hr2
  refine ⟨⟨_, hu1, ?_⟩, ⟨_, hs1, ?_⟩, ?_, ?_⟩
  · rw [hu2, hA2, hB2, hr2, hR2, hA1, hB1, hR1, add_comm]
  · rw [hs2, hA2, hB2, hR2, hA1, hB1, hr1, hR1, add_comm]
  · show l1.output_min = l2.output_min
    rw [hmn1, hmn2, add_comm]
  · show l1.output_max = l2.output_max
    rw [hmx1, hmx2, add_comm]

set_option maxRecDepth 100000 in
/-- C13 at the spec's scenario and its swap: the reorder scale of the uint8 operand
is 254/765 in both calls, the sum scale of the int8 operand is 1/3 in both, and
the output range is [-150, 150] in both. -/
theorem C13_dynamic_swap_symmetry_witness :
    (forwardLocals stdRanges noCalib swappedIn scenarioOut).u8_reorder_scale = some (254 / 765) ∧
    (forwardLocals stdRanges noCalib scenarioIn scenarioOut).u8_reorder_scale = some (254 / 765) ∧
    (forwardLocals stdRanges noCalib swappedIn scenarioOut).scales = [1 / 3, 1] ∧
    (forwardLocals stdRanges noCalib scenarioIn scenarioOut).scales = [1, 1 / 3] ∧
    (forwardLocals stdRanges noCalib swappedIn scenarioOut).output_max =
      (forwardLocals stdRanges noCalib scenarioIn scenarioOut).output_max :=
  ⟨by with_unfolding_all decide, by with_unfolding_all decide, by with_unfolding_all decide,
   by with_unfolding_all decide,
   (C13_dynamic_swap_symmetry stdRanges noCalib (quantArr TypeFlag.kInt8 [-1, 2, -3, 4])
      (quantArr TypeFlag.kUint8 [10, 20, 30, 40]) (scalarArr (-50)) (scalarArr 50) (scalarArr 0)
      (scalarArr 100) scenarioOut rfl rfl (Or.inl rfl)).2.2.2⟩

/-- C14: two calls that pass the arity checks, have the same calibration bounds and
agree on the four input range scalars write the same `result_min` and the same
`result_max`, whatever their range constants, operand tensors (contents, shapes,
dtypes), output tensors, write modes and thread states (plan caches) are. -/
theorem C14_output_range_depends_on_ranges_only (c1 c2 : RangeConstants)
    (params : QuantizeElemwiseAddParam) (in1 in2 : List NDArray) (req1 req2 : List OpReqType)
    (out1 out2 : List NDArray) (th1 th2 : ThreadState)
    (hin1 : in1.length = 6) (hout1 : out1.length = 3)
    (hin2 : in2.length = 6) (hout2 : out2.length = 3)
    (hAmin : (in1.getD kAMin default).scalar = (in2.getD kAMin default).scalar)
    (hAmax : (in1.getD kAMax default).scalar = (in2.getD kAMax default).scalar)
    (hBmin : (in1.getD kBMin default).scalar = (in2.getD kBMin default).scalar)
    (hBmax : (in1.getD kBMax default).scalar = (in2.getD kBMax default).scalar) :
    ((DNNLQuantizedElemwiseAddForward c1 params in1 req1 out1 th1).out_data.getD kMin
        default).scalar =
      ((DNNLQuantizedElemwiseAddForward c2 params in2 req2 out2 th2).out_data.getD kMin
        default).scalar ∧
    ((DNNLQuantizedElemwiseAddForward c1 params in1 req1 out1 th1).out_data.getD kMax
        default).scalar =
      ((DNNLQuantizedElemwiseAddForward c2 params in2 req2 out2 th2).out_data.getD kMax
        default).scalar := by
  obtain ⟨hmn1, hmx1⟩ := forward_range_scalars c1 params in1 req1 out1 th1 hin1 hout1
  obtain ⟨hmn2, hmx2⟩ := forward_range_scalars c2 params in2 req2 out2 th2 hin2 hout2
  rw [hmn1, hmx1, hmn2, hmx2, forwardLocals_output_min, forwardLocals_output_min,
    forwardLocals_output_max, forwardLocals_output_max, hAmin, hAmax, hBmin, hBmax]
  exact ⟨rfl, rfl⟩

set_option maxRecDepth 100000 in
/-- C14 at two calls with the ranges [0, 100] and [-50, 50] and no calibration: the
spec's scenario on a fresh thread, and int8 operands of another shape with an
int32 result, accumulate mode and a non-empty cache; both write -150 and 150. -/
theorem C14_output_range_depends_on_ranges_only_witness :
    (DNNLQuantizedElemwiseAddForward stdRanges noCalib otherShapeIn [OpReqType.kAddTo]
        otherShapeOut priorThread).out_data.map NDArray.scalar = [0, -150, 150] ∧
    ((DNNLQuantizedElemwiseAddForward stdRanges noCalib scenarioIn reqWrite scenarioOut
        ThreadState.init).out_data.getD kMax default).scalar =
      ((DNNLQuantizedElemwiseAddForward stdRanges noCalib otherShapeIn [OpReqType.kAddTo]
        otherShapeOut priorThread).out_data.getD kMax default).scalar :=
  ⟨by with_unfolding_all decide,
   (C14_output_range_depends_on_ranges_only stdRanges stdRanges noCalib scenarioIn otherShapeIn
      reqWrite [OpReqType.kAddTo] scenarioOut otherShapeOut ThreadState.init priorThread
      (by decide) (by decide) (by decide) (by decide) (by with_unfolding_all decide)
      (by with_unfolding_all decide) (by with_unfolding_all decide)
      (by with_unfolding_all decide)).2⟩

set_option maxRecDepth 100000 in
/-- C15 refuted as stated, at the spec's scenario with an int8 result tensor: in
dynamic mode and in calibrated mode for the bounds [-150, 150] the reorder scale
of A is 254/765 and the sum scale of B is 1/3, the operand scales are 51/20 and
127/50 and the output scale is 127/150; the quotients `rescale / operand_scale`
are 1016/7803 and 50/381, equal neither to the output scale nor to each other. -/
theorem C15_quotient_is_not_out_scale :
    (forwardLocals stdRanges noCalib scenarioIn scenarioOut).u8_reorder_scale =
      some (254 / 765) ∧
    (forwardLocals stdRanges (sumCalib scenarioIn) scenarioIn scenarioOut).u8_reorder_scale =
      some (254 / 765) ∧
    (forwardLocals stdRanges noCalib scenarioIn scenarioOut).scales = [1, 1 / 3] ∧
    (forwardLocals stdRanges (sumCalib scenarioIn) scenarioIn scenarioOut).scales = [1, 1 / 3] ∧
    (forwardLocals stdRanges (sumCalib scenarioIn) scenarioIn scenarioOut).A_scale = 51 / 20 ∧
    (forwardLocals stdRanges (sumCalib scenarioIn) scenarioIn scenarioOut).B_scale = 127 / 50 ∧
    (forwardLocals stdRanges (sumCalib scenarioIn) scenarioIn scenarioOut).out_data_scale =
      127 / 150 ∧
    (254 / 765 : ℚ) / (51 / 20) ≠ 127 / 150 ∧
    (1 / 3 : ℚ) / (127 / 50) ≠ 127 / 150 ∧
    (254 / 765 : ℚ) / (51 / 20) ≠ (1 / 3) / (127 / 50) := by
  refine ⟨?_, ?_, ?_, ?_, ?_, ?_, ?_, ?_, ?_, ?_⟩ <;> with_unfolding_all decide

/-- C15 as amended: over exact rationals, with positive range constants, operands of
dtype int8 or uint8, any output dtype and both absolute maxima positive, the
scale vector, the reorder scale and the output range of dynamic mode are those of
calibrated mode for the bounds minus and plus `dataA_absmax + dataB_absmax`, whose
output scale is `output_data_range / (dataA_absmax + dataB_absmax)`; and each
rescale factor times (not divided by) the operand's scale is that output scale:
`rescale_A * A_scale = rescale_B * B_scale = out_scale`. -/
theorem C15_dynamic_is_calibrated_at_sum (c : RangeConstants)
    (params : QuantizeElemwiseAddParam) (in_data out_data : List NDArray)
    (hcal : params.min_calib_range = none ∨ params.max_calib_range = none)
    (hc : c.Positive)
    (hdA : (in_data.getD kDataA default).dtype = TypeFlag.kInt8 ∨
      (in_data.getD kDataA default).dtype = TypeFlag.kUint8)
    (hdB : (in_data.getD kDataB default).dtype = TypeFlag.kInt8 ∨
      (in_data.getD kDataB default).dtype = TypeFlag.kUint8)
    (hA : 0 < MaxAbs (in_data.getD kAMin default).scalar (in_data.getD kAMax default).scalar)
    (hB : 0 < MaxAbs (in_data.getD kBMin default).scalar (in_data.getD kBMax default).scalar) :
    let ld := forwardLocals c params in_data out_data
    let lc := forwardLocals c (sumCalib in_data) in_data out_data
    let A := in_data.getD kDataA default
    let B := in_data.getD kDataB default
    let A_scale :=
      GetScale c A (in_data.getD kAMin default).scalar (in_data.getD kAMax default).scalar
    let B_scale :=
      GetScale c B (in_data.getD kBMin default).scalar (in_data.getD kBMax default).scalar
    let out_scale := ld.output_data_range /
      (MaxAbs (in_data.getD kAMin default).scalar (in_data.getD kAMax default).scalar +
        MaxAbs (in_data.getD kBMin default).scalar (in_data.getD kBMax default).scalar)
    ld.scales = lc.scales ∧ ld.u8_reorder_scale = lc.u8_reorder_scale ∧
    ld.output_min = lc.output_min ∧ ld.output_max = lc.output_max ∧
    lc.out_data_scale = out_scale ∧
    (A.dtype = B.dtype →
      ∃ x y : ℚ, ld.scales = [x, y] ∧ ld.u8_reorder_scale = none ∧
        x * A_scale = out_scale ∧ y * B_scale = out_scale) ∧
    (A.dtype = TypeFlag.kInt8 → B.dtype = TypeFlag.kUint8 →
      ∃ x r : ℚ, ld.scales = [x, 1] ∧ ld.u8_reorder_scale = some r ∧
        x * A_scale = out_scale ∧ r * B_scale = out_scale) ∧
    (A.dtype = TypeFlag.kUint8 → B.dtype = TypeFlag.kInt8 →
      ∃ r y : ℚ, ld.scales = [1, y] ∧ ld.u8_reorder_scale = some r ∧
        r * A_scale = out_scale ∧ y * B_scale = out_scale) := by
  intro ld lc A B A_scale B_scale out_scale
  obtain ⟨hsc, hre⟩ := dynamic_scales_eq_sumCalib c params in_data out_data hcal hdA hdB
  obtain ⟨hmx, hmn⟩ := forwardLocals_dynamic_range c params in_data out_data hcal
  have hs0 := add_nonneg
    (MaxAbs_nonneg (in_data.getD kAMin default).scalar (in_data.getD kAMax default).scalar)
    (MaxAbs_nonneg (in_data.getD kBMin default).scalar (in_data.getD kBMax default).scalar)
  obtain ⟨hRc, hos, hAs, hBs, csame, cA8, cB8⟩ := forwardLocals_calibrated c
    (-(MaxAbs (in_data.getD kAMin default).scalar (in_data.getD kAMax default).scalar +
      MaxAbs (in_data.getD kBMin default).scalar (in_data.getD kBMax default).scalar))
    (MaxAbs (in_data.getD kAMin default).scalar (in_data.getD kAMax default).scalar +
      MaxAbs (in_data.getD kBMin default).scalar (in_data.getD kBMax default).scalar)
    in_data out_data
  have hRd := (forwardLocals_output_domain c params in_data out_data).1
  rw [MaxAbs_neg_self _ hs0, hRc, ← hRd] at hos
  have hos' : lc.out_data_scale = out_scale := hos
  have hAne : A_scale ≠ 0 := ne_of_gt (GetScale_pos c A _ _ hc hA)
  have hBne : B_scale ≠ 0 := ne_of_gt (GetScale_pos c B _ _ hc hB)
  have hAs' : lc.A_scale = A_scale := hAs
  have hBs' : lc.B_scale = B_scale := hBs
  have hsc' : ld.scales = lc.scales := hsc
  have hre' : ld.u8_reorder_scale = lc.u8_reorder_scale := hre
  have hcmx : lc.output_max = MaxAbs (in_data.getD kAMin default).scalar
      (in_data.getD kAMax default).scalar +
      MaxAbs (in_data.getD kBMin default).scalar (in_data.getD kBMax default).scalar := by
    show (forwardLocals c (sumCalib in_data) in_data out_data).output_max = _
    rw [forwardLocals_output_max]; rfl
  have hcmn : lc.output_min = -(MaxAbs (in_data.getD kAMin default).scalar
      (in_data.getD kAMax default).scalar +
      MaxAbs (in_data.getD kBMin default).scalar (in_data.getD kBMax default).scalar) := by
    show (forwardLocals c (sumCalib in_data) in_data out_data).output_min = _
    rw [forwardLocals_output_min]; rfl
  refine ⟨hsc', hre', hmn.trans hcmn.symm, hmx.trans hcmx.symm, hos', fun hd => ?_,
    fun h8 hu => ?_, fun hu h8 => ?_⟩
  · obtain ⟨c1, c2⟩ := csame hd
    have c1' : lc.scales = [lc.out_data_scale / lc.A_scale, lc.out_data_scale / lc.B_scale] := c1
    have c2' : lc.u8_reorder_scale = none := c2
    rw [hos', hAs', hBs'] at c1'
    exact ⟨_, _, hsc'.trans c1', hre'.trans c2', div_mul_cancel₀ _ hAne, div_mul_cancel₀ _ hBne⟩
  · have hne : A.dtype ≠ B.dtype := by rw [h8, hu]; decide
    obtain ⟨c1, c2⟩ := cA8 hne h8
    have c1' : lc.scales = [lc.out_data_scale / lc.A_scale, 1] := c1
    have c2' : lc.u8_reorder_scale = some (lc.out_data_scale / lc.B_scale) := c2
    rw [hos', hAs'] at c1'
    rw [hos', hBs'] at c2'
    exact ⟨_, _, hsc'.trans c1', hre'.trans c2', div_mul_cancel₀ _ hAne, div_mul_cancel₀ _ hBne⟩
  · have hne : A.dtype ≠ B.dtype := by rw [h8, hu]; decide
    have hn8 : A.dtype ≠ TypeFlag.kInt8 := by rw [hu]; decide
    obtain ⟨c1, c2⟩ := cB8 hne hn8
    have c1' : lc.scales = [1, lc.out_data_scale / lc.B_scale] := c1
    have c2' : lc.u8_reorder_scale = some (lc.out_data_scale / lc.A_scale) := c2
    rw [hos', hBs'] at c1'
    rw [hos', hAs'] at c2'
    exact ⟨_, _, hsc'.trans c1', hre'.trans c2', div_mul_cancel₀ _ hAne, div_mul_cancel₀ _ hBne⟩

/-- C15 as amended, at the spec's scenario with an int8 result tensor: dynamic mode
and calibrated mode for the bounds [-150, 150] give the same scale vector, the
same reorder scale and the same output maximum. -/
theorem C15_dynamic_is_calibrated_at_sum_witness :
    (forwardLocals stdRanges noCalib scenarioIn scenarioOut).scales =
      (forwardLocals stdRanges (sumCalib scenarioIn) scenarioIn scenarioOut).scales ∧
    (forwardLocals stdRanges noCalib scenarioIn scenarioOut).u8_reorder_scale =
      (forwardLocals stdRanges (sumCalib scenarioIn) scenarioIn scenarioOut).u8_reorder_scale ∧
    (forwardLocals stdRanges noCalib scenarioIn scenarioOut).output_max =
      (forwardLocals stdRanges (sumCalib scenarioIn) scenarioIn scenarioOut).output_max :=
  ⟨(C15_dynamic_is_calibrated_at_sum stdRanges noCalib scenarioIn scenarioOut (Or.inl rfl)
      stdRanges_positive (by decide) (by decide) (by with_unfolding_all decide)
      (by with_unfolding_all decide)).1,
   (C15_dynamic_is_calibrated_at_sum stdRanges noCalib scenarioIn scenarioOut (Or.inl rfl)
      stdRanges_positive (by decide) (by decide) (by with_unfolding_all decide)
      (by with_unfolding_all decide)).2.1,
   (C15_dynamic_is_calibrated_at_sum stdRanges noCalib scenarioIn scenarioOut (Or.inl rfl)
      stdRanges_positive (by decide) (by decide) (by with_unfolding_all decide)
      (by with_unfolding_all decide)).2.2.2.1⟩

/-- C16: with positive range constants, every division a call performs (the two
`GetScale` calls, `out_data_scale`, and the two scale formulas of the branch
taken) has a non-zero divisor exactly when `dataA_absmax > 0`, `dataB_absmax > 0`
and, if both calibration bounds are given, `MaxAbs` of the bounds is positive;
each operand's absolute maximum is itself a divisor in every mode and on every
branch, so the positivity of each of them is needed. -/
theorem C16_divisors_nonzero (c : RangeConstants) (params : QuantizeElemwiseAddParam)
    (in_data out_data : List NDArray) (hc : c.Positive) :
    ((∀ d ∈ forwardDivisors c params in_data out_data, d ≠ 0) ↔
      (0 < MaxAbs (in_data.getD kAMin default).scalar (in_data.getD kAMax default).scalar ∧
        0 < MaxAbs (in_data.getD kBMin default).scalar (in_data.getD kBMax default).scalar ∧
        ∀ mn mx : ℚ, params.min_calib_range = some mn → params.max_calib_range = some mx →
          0 < MaxAbs mn mx)) ∧
    MaxAbs (in_data.getD kAMin default).scalar (in_data.getD kAMax default).scalar ∈
      forwardDivisors c params in_data out_data ∧
    MaxAbs (in_data.getD kBMin default).scalar (in_data.getD kBMax default).scalar ∈
      forwardDivisors c params in_data out_data := by
  obtain ⟨hAmem, hBmem⟩ := absmax_mem_forwardDivisors c params in_data out_data
  refine ⟨⟨fun h => ?_, fun h => ?_⟩, hAmem, hBmem⟩
  · refine ⟨lt_of_le_of_ne (MaxAbs_nonneg _ _) (Ne.symm (h _ hAmem)),
      lt_of_le_of_ne (MaxAbs_nonneg _ _) (Ne.symm (h _ hBmem)), fun mn mx hmin hmax => ?_⟩
    obtain ⟨pmin, pmax⟩ := params
    simp only at hmin hmax
    subst hmin hmax
    obtain ⟨x, y, _, hdiv⟩ := forwardDivisors_calibrated c mn mx in_data out_data
    have hM : MaxAbs mn mx ∈
        forwardDivisors c { min_calib_range := some mn, max_calib_range := some mx } in_data
          out_data := by
      rw [hdiv]
      simp only [List.mem_cons, true_or, or_true]
    exact lt_of_le_of_ne (MaxAbs_nonneg _ _) (Ne.symm (h _ hM))
  · obtain ⟨hA, hB, hM⟩ := h
    intro d hd
    obtain ⟨pmin, pmax⟩ := params
    cases pmin with
    | none =>
      obtain ⟨r1, r2, hr1, hr2, hdiv⟩ := forwardDivisors_dynamic_ranges c
        { min_calib_range := none, max_calib_range := pmax } in_data out_data
        (calibrated_eq_false _ (Or.inl rfl))
      rw [hdiv] at hd
      have h1 : 0 < r1 := by rcases hr1 with h | h <;> rw [h]; exact hc.1; exact hc.2.1
      have h2 : 0 < r2 := by rcases hr2 with h | h <;> rw [h]; exact hc.1; exact hc.2.1
      simp only [List.mem_cons, List.mem_singleton, List.not_mem_nil, or_false] at hd
      rcases hd with h | h | h | h <;> rw [h]
      · exact ne_of_gt hA
      · exact ne_of_gt hB
      · exact ne_of_gt (mul_pos (add_pos hA hB) h1)
      · exact ne_of_gt (mul_pos (add_pos hA hB) h2)
    | some mn =>
      cases pmax with
      | none =>
        obtain ⟨r1, r2, hr1, hr2, hdiv⟩ := forwardDivisors_dynamic_ranges c
          { min_calib_range := some mn, max_calib_range := none } in_data out_data
          (calibrated_eq_false _ (Or.inr rfl))
        rw [hdiv] at hd
        have h1 : 0 < r1 := by rcases hr1 with h | h <;> rw [h]; exact hc.1; exact hc.2.1
        have h2 : 0 < r2 := by rcases hr2 with h | h <;> rw [h]; exact hc.1; exact hc.2.1
        simp only [List.mem_cons, List.mem_singleton, List.not_mem_nil, or_false] at hd
        rcases hd with h | h | h | h <;> rw [h]
        · exact ne_of_gt hA
        · exact ne_of_gt hB
        · exact ne_of_gt (mul_pos (add_pos hA hB) h1)
        · exact ne_of_gt (mul_pos (add_pos hA hB) h2)
      | some mx =>
        obtain ⟨x, y, hxy, hdiv⟩ := forwardDivisors_calibrated c mn mx in_data out_data
        rw [hdiv] at hd
        have hSA := GetScale_pos c (in_data.getD kDataA default) _ _ hc hA
        have hSB := GetScale_pos c (in_data.getD kDataB default) _ _ hc hB
        have hx : 0 < x := by rcases hxy with ⟨h, _⟩ | ⟨h, _⟩ <;> rw [h]; exact hSA; exact hSB
        have hy : 0 < y := by rcases hxy with ⟨_, h⟩ | ⟨_, h⟩ <;> rw [h]; exact hSB; exact hSA
        simp only [List.mem_cons, List.mem_singleton, List.not_mem_nil, or_false] at hd
        rcases hd with h | h | h | h | h <;> rw [h]
        · exact ne_of_gt hA
        · exact ne_of_gt hB
        · exact ne_of_gt (hM mn mx rfl rfl)
        · exact ne_of_gt hx
        · exact ne_of_gt hy

set_option maxRecDepth 100000 in
/-- C16 at the spec's scenario with the calibration [-120, 120] and at two operands
with the range [0, 0]: in the first call the five divisors are 100, 50, 120,
51/20 and 127/50, none of them zero; in the second the divisor of `GetScale` is 0. -/
theorem C16_divisors_nonzero_witness :
    forwardDivisors stdRanges calib120 scenarioIn scenarioOut =
      [100, 50, 120, 51 / 20, 127 / 50] ∧
    (∀ d ∈ forwardDivisors stdRanges calib120 scenarioIn scenarioOut, d ≠ 0) ∧
    (0 : ℚ) ∈ forwardDivisors stdRanges noCalib zeroIn scenarioOut :=
  ⟨by with_unfolding_all decide,
   (C16_divisors_nonzero stdRanges calib120 scenarioIn scenarioOut stdRanges_positive).1.mpr
     ⟨by with_unfolding_all decide, by with_unfolding_all decide,
      fun mn mx hmin hmax => by
        cases hmin
        cases hmax
        with_unfolding_all decide⟩,
   (C16_divisors_nonzero stdRanges noCalib zeroIn scenarioOut stdRanges_positive).2.1⟩

end op
end mxnet
